import Mathlib

/-!
Verification of the self-healing observability core of the
`lead-strategies-backend` repository.

The definitions below are a shallow embedding, translated from the
JavaScript sources under `src/system-agents/`.  Timestamps are modelled
as integers (milliseconds), JavaScript numbers as rationals, the various
`Map` objects as functions or lists, and thrown exceptions as `Except`
results.  Effects that leave the modelled component (database writes,
Redis writes, notification dispatch, logging) are noted in comments and
omitted from the state.
-/

namespace SelfHealing

/-- Severity levels, from `config.severity` in `config.js`. -/
inductive Severity
  | critical
  | high
  | medium
  | low
  | info
deriving DecidableEq, Repr

/-- JavaScript truthiness of an optional numeric field: `undefined`,
`null` and `0` are falsy, every other number is truthy.  Used to embed
guards such as `if (data.value && data.threshold)`. -/
def truthyNum : Option ℚ → Bool
  | none => false
  | some q => q ≠ 0

/-- Alert record, from `AlertManager.create` in `EventBus.js` (the file
also contains the AlertManager module).  The `count` field is absent on
creation and only set by `AlertManager.processAlert`
(`alert.count = (alert.count || 1) + 1`), hence `Option Nat`. -/
structure Alert where
  id : Nat
  type : String
  component : String
  message : String
  severity : Severity
  thresholdValue : Option ℚ
  actualValue : Option ℚ
  acknowledged : Bool
  acknowledgedBy : Option String
  resolved : Bool
  autoResolved : Bool
  resolution : String
  count : Option Nat
  createdAt : Int
  updatedAt : Int
  acknowledgedAt : Option Int
  resolvedAt : Option Int
  lastOccurrence : Option Int
deriving DecidableEq, Repr

/-- Input records accepted by `AlertManager.create(alertType, data)`. -/
structure AlertData where
  component : Option String
  message : Option String
  severity : Option Severity
  threshold : Option ℚ
  value : Option ℚ
deriving DecidableEq, Repr

/-- Alert types hard-coded as critical in
`AlertManager.determineSeverity` (`criticalTypes`). -/
def criticalTypes : List String :=
  ["API_DOWN", "DB_CONNECTION_ERROR", "SECURITY_THREAT", "SQL_INJECTION"]

/-- Alert types hard-coded as high in
`AlertManager.determineSeverity` (`highTypes`). -/
def highTypes : List String :=
  ["API_ERROR_RATE", "DB_POOL_EXHAUSTED", "BRUTE_FORCE", "EMAIL_PROVIDER_DOWN"]

/-- Embedding of `AlertManager.determineSeverity(alertType, data)`:
hard-coded critical types first, then hard-coded high types, then the
value/threshold ratio heuristic guarded by JavaScript truthiness of both
numbers, defaulting to low. -/
def determineSeverity (alertType : String) (data : AlertData) : Severity :=
  if alertType ∈ criticalTypes then Severity.critical
  else if alertType ∈ highTypes then Severity.high
  else if truthyNum data.value ∧ truthyNum data.threshold then
    let ratio := data.value.getD 0 / data.threshold.getD 0
    if 2 < ratio then Severity.critical
    else if 3/2 < ratio then Severity.high
    else if 1 < ratio then Severity.medium
    else Severity.low
  else Severity.low

/-- In-memory state of the AlertManager: the `this.alerts` map in
insertion order (JavaScript `Map` iterates in insertion order, which
`findRelatedAlert` relies on), plus a counter standing in for
`generateId()`. -/
structure AlertManagerState where
  alerts : List Alert
  nextId : Nat
deriving Repr

/-- Empty AlertManager, as built by the constructor. -/
def AlertManagerState.init : AlertManagerState := ⟨[], 0⟩

/-- Embedding of `AlertManager.create(alertType, data)` at time `now`.
A fresh alert record is built and stored unconditionally; the database
write, the Event Bus publication and the notification queueing are
effects outside this model. -/
def AlertManagerState.create (s : AlertManagerState) (alertType : String)
    (data : AlertData) (now : Int) : AlertManagerState × Alert :=
  let alert : Alert :=
    { id := s.nextId
      type := alertType
      component := data.component.getD "system"
      message := data.message.getD ("Alert: " ++ alertType)
      severity := data.severity.getD (determineSeverity alertType data)
      thresholdValue := data.threshold
      actualValue := data.value
      acknowledged := false
      acknowledgedBy := none
      resolved := false
      autoResolved := false
      resolution := ""
      count := none
      createdAt := now
      updatedAt := now
      acknowledgedAt := none
      resolvedAt := none
      lastOccurrence := none }
  (⟨s.alerts ++ [alert], s.nextId + 1⟩, alert)

/-- Embedding of `AlertManager.findRelatedAlert(alertData)`: the first
stored alert (in insertion order) with the same type and component that
is not resolved. -/
def AlertManagerState.findRelatedAlert (s : AlertManagerState)
    (type component : String) : Option Alert :=
  s.alerts.find? (fun a => a.type = type ∧ a.component = component ∧ ¬a.resolved)

/-- Embedding of `AlertManager.processAlert(alertData)` at time `now`.
When an unresolved alert with the same (type, component) pair exists,
its occurrence count is bumped in place and it is returned; otherwise
the incoming data is returned untouched and nothing is stored. -/
def AlertManagerState.processAlert (s : AlertManagerState) (alertData : Alert)
    (now : Int) : AlertManagerState × Alert :=
  match s.findRelatedAlert alertData.type alertData.component with
  | some existing =>
      let updated : Alert :=
        { existing with
            count := some ((existing.count.getD 1) + 1)
            lastOccurrence := some now
            updatedAt := now }
      (⟨s.alerts.map (fun a => if a.id = existing.id then updated else a),
        s.nextId⟩, updated)
  | none => (s, alertData)

/-- Error raised by the management operations: `acknowledge` and
`resolve` throw `new Error(...)` with a not-found message when the id
names no stored alert (the spec's `NotFoundError` taxonomy entry). -/
inductive AlertError
  | notFound (alertId : Nat)
deriving DecidableEq, Repr

/-- Look up an alert by id (`this.alerts.get(alertId)`). -/
def AlertManagerState.getAlert (s : AlertManagerState) (alertId : Nat) :
    Option Alert :=
  s.alerts.find? (fun a => a.id = alertId)

/-- Replace the alert with the given id. -/
def AlertManagerState.setAlert (s : AlertManagerState) (a : Alert) :
    AlertManagerState :=
  ⟨s.alerts.map (fun b => if b.id = a.id then a else b), s.nextId⟩

/-- Field updates performed by `AlertManager.acknowledge` on the found
alert. -/
def ackUpdate (a : Alert) (userId : Option String) (now : Int) : Alert :=
  { a with
      acknowledged := true
      acknowledgedBy := userId
      acknowledgedAt := some now
      updatedAt := now }

/-- Field updates performed by `AlertManager.resolve` on the found
alert. -/
def resolveUpdate (a : Alert) (autoResolved : Bool) (resolution : String)
    (now : Int) : Alert :=
  { a with
      resolved := true
      autoResolved := autoResolved
      resolution := resolution
      resolvedAt := some now
      updatedAt := now }

/-- Embedding of `AlertManager.acknowledge(alertId, userId)` at time
`now`.  Fails when the id is unknown; otherwise marks the alert
acknowledged.  The database update is an effect outside this model. -/
def AlertManagerState.acknowledge (s : AlertManagerState) (alertId : Nat)
    (userId : Option String) (now : Int) :
    Except AlertError (AlertManagerState × Alert) :=
  match s.getAlert alertId with
  | none => .error (.notFound alertId)
  | some alert =>
      let updated := ackUpdate alert userId now
      .ok (s.setAlert updated, updated)

/-- Embedding of `AlertManager.resolve(alertId, options)` at time `now`
with `options = (autoResolved, resolution)`.  Fails when the id is
unknown; otherwise marks the alert resolved.  The database update is an
effect outside this model. -/
def AlertManagerState.resolve (s : AlertManagerState) (alertId : Nat)
    (autoResolved : Bool) (resolution : String) (now : Int) :
    Except AlertError (AlertManagerState × Alert) :=
  match s.getAlert alertId with
  | none => .error (.notFound alertId)
  | some alert =>
      let updated := resolveUpdate alert autoResolved resolution now
      .ok (s.setAlert updated, updated)

/-- Well-formedness of the AlertManager state: every stored id is below
the id counter, so freshly created alerts get unused ids.  Holds for
`init` and is preserved by all operations. -/
def AlertManagerState.WF (s : AlertManagerState) : Prop :=
  ∀ a ∈ s.alerts, a.id < s.nextId

instance (s : AlertManagerState) : Decidable s.WF := by
  unfold AlertManagerState.WF
  infer_instance

/-- Count of stored, unresolved alerts for a (type, component) pair. -/
def AlertManagerState.pairCount (s : AlertManagerState)
    (type component : String) : Nat :=
  (s.alerts.filter
    (fun a => a.type = type ∧ a.component = component ∧ ¬a.resolved)).length

/-! Metrics Store, from `MetricsStore.js`. -/

/-- Metric sample record built by `MetricsStore.record`. -/
structure Metric where
  id : Nat
  name : String
  value : ℚ
  unit : String
  component : String
  tags : List (String × String)
  severity : String
  timestamp : Int
deriving DecidableEq, Repr

/-- Options accepted by `MetricsStore.record` (defaults: empty unit,
component "system", no tags, severity "normal"). -/
structure RecordOptions where
  unit : String
  component : String
  tags : List (String × String)
  severity : String
deriving DecidableEq, Repr

/-- In-memory state of the MetricsStore: the `this.metrics` map from
metric name to sample array, plus a counter standing in for
`generateId()`. -/
structure MetricsStoreState where
  metrics : String → List Metric
  nextId : Nat

/-- The `this.maxInMemoryPoints` constant set in the constructor. -/
def maxInMemoryPoints : Nat := 10000

/-- Empty MetricsStore, as built by the constructor. -/
def MetricsStoreState.init : MetricsStoreState := ⟨fun _ => [], 0⟩

/-- The sample record assembled at the top of `MetricsStore.record`. -/
def recordedMetric (s : MetricsStoreState) (name : String) (value : ℚ)
    (opts : RecordOptions) (now : Int) : Metric :=
  ⟨s.nextId, name, value, opts.unit, opts.component, opts.tags,
    opts.severity, now⟩

/-- Embedding of `MetricsStore.record(name, value, options)` at time
`now`: append the sample to the per-name array, then drop the oldest
sample if the array exceeds `maxInMemoryPoints`.  The Redis write and
the Event Bus publication are effects outside this model. -/
def MetricsStoreState.record (s : MetricsStoreState) (name : String)
    (value : ℚ) (opts : RecordOptions) (now : Int) :
    MetricsStoreState × Metric :=
  let metric := recordedMetric s name value opts now
  let arr := s.metrics name ++ [metric]
  let arr' := if maxInMemoryPoints < arr.length then arr.tail else arr
  (⟨fun n => if n = name then arr' else s.metrics n, s.nextId + 1⟩, metric)

/-- JavaScript truthiness of an optional timestamp, for the
`if (startTime)` and `if (endTime)` guards in `MetricsStore.get`. -/
def truthyTime : Option Int → Bool
  | none => false
  | some t => t ≠ 0

/-- Options accepted by `MetricsStore.get` (default limit 100). -/
structure GetOptions where
  startTime : Option Int
  endTime : Option Int
  limit : Nat
deriving DecidableEq, Repr

/-- Defaults of `MetricsStore.get`. -/
def defaultGetOptions : GetOptions := ⟨none, none, 100⟩

/-- Embedding of `metrics.slice(-limit)`: the newest `limit` samples
(`slice(-0)` returns the whole array, hence the guard). -/
def sliceLast (l : List Metric) (limit : Nat) : List Metric :=
  if limit = 0 then l else l.drop (l.length - limit)

/-- Embedding of `MetricsStore.get(name, options)`: optional time-range
filters, then the newest `limit` samples. -/
def MetricsStoreState.get (s : MetricsStoreState) (name : String)
    (opts : GetOptions) : List Metric :=
  let ms := s.metrics name
  let ms := if truthyTime opts.startTime then
      ms.filter (fun m => opts.startTime.getD 0 ≤ m.timestamp) else ms
  let ms := if truthyTime opts.endTime then
      ms.filter (fun m => m.timestamp ≤ opts.endTime.getD 0) else ms
  sliceLast ms opts.limit

/-- Embedding of `average(arr)` from `helpers.js`. -/
def average (arr : List ℚ) : ℚ :=
  if arr.length = 0 then 0 else arr.sum / arr.length

/-- Embedding of `percentile(arr, p)` from `helpers.js` (linear
interpolation between the two nearest ranks of the sorted array). -/
def percentile (arr : List ℚ) (p : ℚ) : ℚ :=
  if arr.length = 0 then 0
  else
    let sorted := arr.mergeSort (fun a b => a ≤ b)
    let index : ℚ := (p / 100) * ((arr.length : ℚ) - 1)
    let lower := ⌊index⌋
    let upper := ⌈index⌉
    let weight := index - lower
    if (sorted.length : Int) ≤ upper then sorted.getD (sorted.length - 1) 0
    else sorted.getD lower.toNat 0 * (1 - weight) +
      sorted.getD upper.toNat 0 * weight

/-- Square of `standardDeviation(arr)` from `helpers.js`.  The source
returns `Math.sqrt` of this quantity, which has no exact rational
counterpart, so the model carries the variance. -/
def varianceOf (arr : List ℚ) : ℚ :=
  average (arr.map (fun v => (v - average arr) ^ 2))

/-- Statistics record built by `MetricsStore.getStats`; `stdDevSq` is
the square of the reported `stdDev` (see `varianceOf`). -/
structure MetricStats where
  name : String
  count : Nat
  min : ℚ
  max : ℚ
  avg : ℚ
  stdDevSq : ℚ
  p50 : ℚ
  p90 : ℚ
  p95 : ℚ
  p99 : ℚ
  latest : ℚ
  latestTimestamp : Option Int
deriving DecidableEq, Repr

/-- Minimum of a value list (`Math.min(...values)` on a nonempty
array). -/
def listMin : List ℚ → ℚ
  | [] => 0
  | x :: xs => xs.foldl min x

/-- Maximum of a value list (`Math.max(...values)` on a nonempty
array). -/
def listMax : List ℚ → ℚ
  | [] => 0
  | x :: xs => xs.foldl max x

/-- Embedding of `MetricsStore.getStats(name, options)`: null when the
queried series has no values, otherwise the aggregate statistics. -/
def MetricsStoreState.getStats (s : MetricsStoreState) (name : String)
    (opts : GetOptions) : Option MetricStats :=
  let metrics := s.get name opts
  let values := metrics.map (fun m => m.value)
  if values.length = 0 then none
  else some
    ⟨name, values.length, listMin values, listMax values, average values,
      varianceOf values, percentile values 50, percentile values 90,
      percentile values 95, percentile values 99,
      (values.getLast?).getD 0, (metrics.getLast?).map (fun m => m.timestamp)⟩

/-! Event Bus local dispatch, from `EventBus.js`. -/

/-- Event envelope built by `EventBus.publish`. -/
structure Event where
  id : Nat
  channel : String
  timestamp : Int
deriving DecidableEq, Repr

/-- A subscriber's handler: it either completes or throws, modelled by
`Except`. -/
def Handler := Event → Except String Unit

/-- Embedding of the local half of `EventBus.publish`:
`this.emit(channel, event)` on Node's `EventEmitter` invokes the
channel's listeners synchronously in registration order with no
per-handler error capture, so an exception thrown by a listener
propagates out of `emit` and the remaining listeners are not invoked.
Returns the indices (from `start`) of the invoked handlers and the
first thrown error, if any. -/
def emitLocalAux : List Handler → Event → Nat → List Nat × Option String
  | [], _, _ => ([], none)
  | h :: hs, e, i =>
      match h e with
      | .ok _ =>
          let rest := emitLocalAux hs e (i + 1)
          (i :: rest.1, rest.2)
      | .error msg => ([i], some msg)

/-- Local dispatch of an event to the channel's listener list. -/
def emitLocal (hs : List Handler) (e : Event) : List Nat × Option String :=
  emitLocalAux hs e 0

/-- Embedding of the per-message callback installed by
`EventBus.subscribe` on the Redis path: the handler call is wrapped in
try/catch, so a throwing handler is captured (and logged).  Returns
true when an error was captured. -/
def redisWrap (h : Handler) (e : Event) : Bool :=
  match h e with
  | .ok _ => false
  | .error _ => true

/-- Redis-path delivery of one message: every subscription's wrapped
callback runs to completion, errors captured per handler. -/
def redisDispatch (hs : List Handler) (e : Event) : List Bool :=
  hs.map (fun h => redisWrap h e)

/-! Rate limiter from `helpers.js`, instantiated by the SecurityAgent
as `loginLimiter` for brute-force detection. -/

/-- State of a `RateLimiter`: the constructor arguments and the
`this.requests` map from key to the stored (granted) timestamps. -/
structure RateLimiter where
  maxRequests : Nat
  windowMs : Int
  requests : String → List Int

/-- The `RateLimiter` constructor: empty requests map. -/
def RateLimiter.make (maxRequests : Nat) (windowMs : Int) : RateLimiter :=
  ⟨maxRequests, windowMs, fun _ => []⟩

/-- Embedding of `RateLimiter.isAllowed(key)` at time `now`
(`Date.now()`): filter the key's stored timestamps to those strictly
inside the sliding window, deny without recording anything when at
least `maxRequests` remain (the filtered array is local and
`this.requests` is not updated on the deny path), otherwise grant and
store the filtered timestamps plus `now`. -/
def RateLimiter.isAllowed (rl : RateLimiter) (key : String) (now : Int) :
    Bool × RateLimiter :=
  let windowStart := now - rl.windowMs
  let keyRequests := (rl.requests key).filter (fun time => windowStart < time)
  if rl.maxRequests ≤ keyRequests.length then
    (false, rl)
  else
    (true, { rl with requests := fun k =>
        if k = key then keyRequests ++ [now] else rl.requests k })

/-- Run a sequence of `isAllowed` calls for one key at the given times;
returns the final limiter and the granted (returned-true) times. -/
def runLimiter (rl : RateLimiter) (key : String) : List Int →
    RateLimiter × List Int
  | [] => (rl, [])
  | t :: ts =>
      let step := rl.isAllowed key t
      let rest := runLimiter step.2 key ts
      (rest.1, if step.1 then t :: rest.2 else rest.2)

/-- Membership of a timestamp in the sliding window of length `w`
ending at `T` (half-open on the left, matching the strict
`time > windowStart` filter of `isAllowed`). -/
def inWindow (w T t : Int) : Bool := T - w < t ∧ t ≤ T

/-- Invariant tying the granted times of one key to the limiter's
stored timestamps: the store is a suffix of the grants whose dropped
prefix is entirely outside the window of the last call time `lastNow`;
grants are sorted and bounded by `lastNow`; and every sliding window of
length `w` holds at most `max` grants. -/
def StoreInv (max : Nat) (w : Int) (grants stored : List Int)
    (lastNow : Int) : Prop :=
  (∃ pre, grants = pre ++ stored ∧ ∀ x ∈ pre, x ≤ lastNow - w) ∧
  grants.Pairwise (· ≤ ·) ∧
  (∀ x ∈ grants, x ≤ lastNow) ∧
  (∀ T : Int, (grants.filter (inWindow w T)).length ≤ max)

/-- Concrete event for exercising dispatch. -/
def c2Event : Event := ⟨0, "alert", 0⟩

/-- A handler that throws. -/
def c2Throwing : Handler := fun _ => .error "boom"

/-- A handler that completes normally. -/
def c2Ok : Handler := fun _ => .ok ()

/-! Security Agent, from `SecurityAgent.js`: the `THREAT_PATTERNS`
regular expressions are embedded as character-list matchers, and
`analyzeRequest` / `recordFailedLogin` as state transformers. -/

/-- A JavaScript word character (regex `\w`): letters, digits or
underscore. -/
def isWordChar (c : Char) : Bool :=
  ('a' ≤ c ∧ c ≤ 'z') ∨ ('A' ≤ c ∧ c ≤ 'Z') ∨ ('0' ≤ c ∧ c ≤ '9') ∨ c = '_'

/-- Case-sensitive: does `sub` occur at the head of `s`?  Returns the
remaining characters on success. -/
def dropMatch : List Char → List Char → Option (List Char)
  | [], rest => some rest
  | _ :: _, [] => none
  | k :: ks, c :: cs => if k = c then dropMatch ks cs else none

/-- Case-insensitive variant of `dropMatch`. -/
def dropMatchCI : List Char → List Char → Option (List Char)
  | [], rest => some rest
  | _ :: _, [] => none
  | k :: ks, c :: cs => if k.toLower = c.toLower then dropMatchCI ks cs else none

/-- Does `sub` occur anywhere in `l` (case-sensitive substring)? -/
def hasSubChars (sub : List Char) : List Char → Bool
  | [] => (dropMatch sub []).isSome
  | c :: cs => (dropMatch sub (c :: cs)).isSome || hasSubChars sub cs

/-- Does `sub` occur anywhere in `l` (case-insensitive substring)? -/
def hasSubCharsCI (sub : List Char) : List Char → Bool
  | [] => (dropMatchCI sub []).isSome
  | c :: cs => (dropMatchCI sub (c :: cs)).isSome || hasSubCharsCI sub cs

/-- Substring test on strings (case-sensitive). -/
def hasSub (sub s : String) : Bool := hasSubChars sub.data s.data

/-- Substring test on strings (case-insensitive). -/
def hasSubCI (sub s : String) : Bool := hasSubCharsCI sub.data s.data

/-- Word-boundary check for a keyword occurrence: the character before
(`prev`, none at string start) and the character after (head of `after`)
must not be word characters (regex `\b...\b`). -/
def boundaryOk (prev : Option Char) (after : List Char) : Bool :=
  (match prev with
   | none => true
   | some c => !isWordChar c) &&
  (match after with
   | [] => true
   | c :: _ => !isWordChar c)

/-- Scan for a case-insensitive occurrence of `kw` delimited by word
boundaries, tracking the previous character. -/
def kwScan (kw : List Char) : Option Char → List Char → Bool
  | prev, [] =>
      match dropMatchCI kw [] with
      | some rest => boundaryOk prev rest
      | none => false
  | prev, c :: cs =>
      (match dropMatchCI kw (c :: cs) with
       | some rest => boundaryOk prev rest
       | none => false) || kwScan kw (some c) cs

/-- The keyword alternatives of `THREAT_PATTERNS.SQL_INJECTION`. -/
def sqlKeywords : List String :=
  ["SELECT", "INSERT", "UPDATE", "DELETE", "DROP", "UNION", "ALTER",
    "EXEC", "EXECUTE"]

/-- Embedding of the `THREAT_PATTERNS.SQL_INJECTION` regex test
(`/('|"|;|--|\b(SELECT|INSERT|UPDATE|DELETE|DROP|UNION|ALTER|EXEC|EXECUTE)\b)/i`). -/
def sqlPatternTest (s : String) : Bool :=
  s.data.contains '\'' || s.data.contains '"' || s.data.contains ';' ||
  hasSub "--" s ||
  sqlKeywords.any (fun kw => kwScan kw.data none s.data)

/-- Embedding of the `THREAT_PATTERNS.PATH_TRAVERSAL` regex test
(`/\.\.\//`). -/
def pathTraversalTest (s : String) : Bool := hasSub "../" s

/-- Tail of the `on\w+\s*=` XSS alternative: at least one word
character, optional whitespace, then an equals sign. -/
def onAttrTail (l : List Char) : Bool :=
  let w := l.takeWhile isWordChar
  let rest := (l.dropWhile isWordChar).dropWhile Char.isWhitespace
  !w.isEmpty &&
  (match rest with
   | '=' :: _ => true
   | _ => false)

/-- Scan for the `on\w+\s*=` XSS alternative (case-insensitive). -/
def onAttrScan : List Char → Bool
  | [] => false
  | c :: cs =>
      (c.toLower = 'o' &&
        (match cs with
         | d :: ds => d.toLower = 'n' && onAttrTail ds
         | [] => false)) || onAttrScan cs

/-- Embedding of the `THREAT_PATTERNS.XSS_ATTEMPT` regex test
(`/(<script|javascript:|on\w+\s*=|<iframe|<object|<embed)/i`). -/
def xssPatternTest (s : String) : Bool :=
  hasSubCI "<script" s || hasSubCI "javascript:" s || onAttrScan s.data ||
  hasSubCI "<iframe" s || hasSubCI "<object" s || hasSubCI "<embed" s

/-- Embedding of the `THREAT_PATTERNS.COMMAND_INJECTION` regex test:
pipe, semicolon, backquote, dollar-paren or double ampersand
(the backquote is written via its code point 96). -/
def cmdPatternTest (s : String) : Bool :=
  s.data.contains '|' || s.data.contains ';' ||
  s.data.contains (Char.ofNat 96) || hasSub "$(" s || hasSub "&&" s

/-- Decode one hex digit. -/
def hexVal (c : Char) : Option Nat :=
  if '0' ≤ c ∧ c ≤ '9' then some (c.toNat - '0'.toNat)
  else if 'a' ≤ c ∧ c ≤ 'f' then some (c.toNat - 'a'.toNat + 10)
  else if 'A' ≤ c ∧ c ≤ 'F' then some (c.toNat - 'A'.toNat + 10)
  else none

/-- Model of `decodeURIComponent` restricted to single-byte percent
escapes: `%XX` with valid hex becomes the character with that code;
strings without a percent sign are returned unchanged (multi-byte UTF-8
sequences and the `URIError` on malformed input are outside the
modelled scope). -/
def percentDecode : List Char → List Char
  | [] => []
  | '%' :: a :: b :: rest =>
      match hexVal a, hexVal b with
      | some ha, some hb => Char.ofNat (ha * 16 + hb) :: percentDecode rest
      | _, _ => '%' :: percentDecode (a :: b :: rest)
  | c :: cs => c :: percentDecode cs

/-- String-level `decodeURIComponent` model. -/
def decodeURIComponentModel (s : String) : String :=
  ⟨percentDecode s.data⟩

/-- A JSON-like request body value: a string leaf, a nested object, or
a non-string non-object leaf (number, boolean, ...). -/
inductive BodyVal
  | str (s : String)
  | obj (fields : List (String × BodyVal))
  | other
deriving Repr

mutual

/-- Recursive body scan of `SecurityAgent.detectSQLInjection`: string
values are tested against the SQL pattern, object values are recursed
into, other values are skipped. -/
def sqlInBodyVal : BodyVal → Bool
  | .str v => sqlPatternTest v
  | .obj fields => sqlInBodyFields fields
  | .other => false

/-- Scan the field values of an object in order. -/
def sqlInBodyFields : List (String × BodyVal) → Bool
  | [] => false
  | (_, v) :: rest => sqlInBodyVal v || sqlInBodyFields rest

end

/-- Embedding of `SecurityAgent.detectSQLInjection(path, body)` as a
match-existence test (the source returns the first matched fragment,
used only as the incident payload). -/
def detectSQLInjection (path : String) (body : List (String × BodyVal)) :
    Bool :=
  sqlPatternTest path || sqlInBodyFields body

/-- Embedding of `SecurityAgent.detectXSS(path, body)`: the decoded
path, then the top-level string values of the body (no recursion in the
source). -/
def detectXSS (path : String) (body : List (String × BodyVal)) : Bool :=
  xssPatternTest (decodeURIComponentModel path) ||
  body.any (fun f =>
    match f.2 with
    | .str v => xssPatternTest v
    | _ => false)

/-- Embedding of `SecurityAgent.detectCommandInjection(body)`:
top-level string values only. -/
def detectCmdInjection (body : List (String × BodyVal)) : Bool :=
  body.any (fun f =>
    match f.2 with
    | .str v => cmdPatternTest v
    | _ => false)

/-- A failed-login entry pushed by `recordFailedLogin`. -/
structure FailedAttempt where
  timestamp : Int
  userId : Option String
  email : Option String
deriving DecidableEq, Repr

/-- A security incident as passed to `storeIncident` (whose database
write is the recording effect; this list is the log of those calls). -/
structure Incident where
  id : Nat
  type : String
  severity : Severity
  ip : String
  path : Option String
  userId : Option String
  mitigationAction : Option String
  blocked : Bool
  timestamp : Int
deriving DecidableEq, Repr

/-- Configured `config.agents.security.maxFailedLogins` default. -/
def maxFailedLogins : Nat := 5

/-- Configured `config.agents.security.lockoutDuration` default (1h in
milliseconds). -/
def lockoutDuration : Int := 3600000

/-- In-memory state of the SecurityAgent: blocked-IP set, failed-login
map, the brute-force `loginLimiter`, the log of stored incidents, and a
counter standing in for `generateId()`. -/
structure SecurityAgentState where
  blockedIPs : List String
  failedLogins : String → List FailedAttempt
  loginLimiter : RateLimiter
  incidents : List Incident
  nextId : Nat

/-- SecurityAgent constructor state: everything empty, the login
limiter built from the security config. -/
def SecurityAgentState.init : SecurityAgentState :=
  ⟨[], fun _ => [], RateLimiter.make maxFailedLogins lockoutDuration, [], 0⟩

/-- Embedding of `SecurityAgent.blockIP` on the in-memory set (the
Redis write and the mitigation event are effects outside this model). -/
def SecurityAgentState.blockIP (s : SecurityAgentState) (ip : String) :
    SecurityAgentState :=
  { s with blockedIPs :=
      if s.blockedIPs.contains ip then s.blockedIPs
      else s.blockedIPs ++ [ip] }

/-- Threat types whose mitigation in `handleThreat` blocks the IP and
marks the incident blocked. -/
def threatBlocks (ttype : String) : Bool :=
  ttype = "SQL_INJECTION" || ttype = "COMMAND_INJECTION" ||
  ttype = "XSS_ATTEMPT" || ttype = "PATH_TRAVERSAL" || ttype = "BRUTE_FORCE"

/-- The mitigation action chosen by the `switch` in `handleThreat`. -/
def mitigationFor (ttype : String) : Option String :=
  if ttype = "SQL_INJECTION" ∨ ttype = "COMMAND_INJECTION" then
    some "BLOCK_IP_PERMANENT"
  else if ttype = "XSS_ATTEMPT" ∨ ttype = "PATH_TRAVERSAL" then
    some "BLOCK_IP_24H"
  else if ttype = "BRUTE_FORCE" then some "BLOCK_IP_1H"
  else if ttype = "RATE_LIMIT_ABUSE" then some "THROTTLE_IP"
  else none

/-- Embedding of `SecurityAgent.handleThreat`: apply the type-specific
mitigation (block the IP for the blocking threat types), store the
incident, and return it.  Account locking, the threat event, the alert
creation and the metric write are effects outside this model. -/
def SecurityAgentState.handleThreat (s : SecurityAgentState) (ttype : String)
    (ip : String) (path : Option String) (userId : Option String)
    (sev : Severity) (now : Int) : SecurityAgentState × Incident :=
  let incident : Incident :=
    ⟨s.nextId, ttype, sev, ip, path, userId, mitigationFor ttype,
      threatBlocks ttype, now⟩
  let s' := if threatBlocks ttype then s.blockIP ip else s
  ({ s' with
      incidents := s'.incidents ++ [incident]
      nextId := s.nextId + 1 }, incident)

/-- Result record of `SecurityAgent.analyzeRequest`. -/
structure AnalyzeResult where
  blocked : Bool
  reason : Option String
  threatType : Option String
deriving DecidableEq, Repr

/-- Embedding of `SecurityAgent.analyzeRequest(request)`: blocked-IP
check first, then the ordered battery of SQL injection, XSS, path
traversal and command injection, first match winning. -/
def SecurityAgentState.analyzeRequest (s : SecurityAgentState) (ip : String)
    (path : String) (body : List (String × BodyVal))
    (userId : Option String) (now : Int) :
    SecurityAgentState × AnalyzeResult :=
  if s.blockedIPs.contains ip then
    (s, ⟨true, some "IP is blocked", some "BLOCKED_IP"⟩)
  else if detectSQLInjection path body then
    ((s.handleThreat "SQL_INJECTION" ip (some path) userId
        Severity.critical now).1,
      ⟨true, some "SQL injection detected", some "SQL_INJECTION"⟩)
  else if detectXSS path body then
    ((s.handleThreat "XSS_ATTEMPT" ip (some path) userId
        Severity.high now).1,
      ⟨true, some "XSS attempt detected", some "XSS_ATTEMPT"⟩)
  else if pathTraversalTest path then
    ((s.handleThreat "PATH_TRAVERSAL" ip (some path) userId
        Severity.high now).1,
      ⟨true, some "Path traversal detected", some "PATH_TRAVERSAL"⟩)
  else if detectCmdInjection body then
    ((s.handleThreat "COMMAND_INJECTION" ip (some path) userId
        Severity.critical now).1,
      ⟨true, some "Command injection detected", some "COMMAND_INJECTION"⟩)
  else (s, ⟨false, none, none⟩)

/-- Embedding of `SecurityAgent.recordFailedLogin(ip, userId, email)`
at time `now`: push the attempt, consult the brute-force limiter, and
on denial raise a BRUTE_FORCE threat.  The metric write is an effect
outside this model. -/
def SecurityAgentState.recordFailedLogin (s : SecurityAgentState)
    (ip : String) (userId email : Option String) (now : Int) :
    SecurityAgentState :=
  let key := "login:" ++ ip
  let s1 := { s with failedLogins := fun k =>
      if k = key then s.failedLogins k ++ [(⟨now, userId, email⟩ : FailedAttempt)]
      else s.failedLogins k }
  let step := s1.loginLimiter.isAllowed ip now
  let s2 := { s1 with loginLimiter := step.2 }
  if step.1 then s2
  else (s2.handleThreat "BRUTE_FORCE" ip none userId Severity.high now).1

/-- Fold a sequence of failed logins for one IP. -/
def recordFailedLogins (s : SecurityAgentState) (ip : String)
    (times : List Int) : SecurityAgentState :=
  times.foldl (fun st t => st.recordFailedLogin ip none none t) s

/-! Monitor Agent probe loops, from the MonitorAgent source.  Each
loop body is modelled as a function from the probe outcome to the
`alertManager.create` calls it issues (alert type plus the explicit
severity, value and threshold it passes). -/

/-- Outcome of a connectivity probe: a response after `responseTime`
milliseconds (with the HTTP `response.ok` flag where relevant), or a
thrown error / timeout. -/
inductive ProbeOutcome
  | ok (responseTime : ℚ) (responseOk : Bool)
  | failure (message : String)
deriving Repr

/-- An `alertManager.create` call issued by a monitor loop. -/
structure AlertCall where
  alertType : String
  severity : Option Severity
  value : Option ℚ
  threshold : Option ℚ
deriving DecidableEq, Repr

/-- Configured `config.thresholds.api.responseTime` default (ms). -/
def apiResponseThreshold : ℚ := 500

/-- Configured `config.thresholds.database.queryTime` default (ms). -/
def dbQueryThreshold : ℚ := 100

/-- Configured `config.thresholds.redis.responseTime` default (ms). -/
def redisResponseThreshold : ℚ := 50

/-- Body of one endpoint iteration of `startAPIMonitoring`: on success,
an API_SLOW alert (no explicit severity) when over threshold; on any
exception or timeout, an API_DOWN alert with explicit critical
severity.  Metric recording is an effect outside this model. -/
def apiCheck : ProbeOutcome → List AlertCall
  | .ok rt _ =>
      if apiResponseThreshold < rt then
        [⟨"API_SLOW", none, some rt, some apiResponseThreshold⟩]
      else []
  | .failure _ => [⟨"API_DOWN", some Severity.critical, none, none⟩]

/-- Body of one iteration of `startDatabaseMonitoring`: DB_SLOW on a
slow health-check query, DB_CONNECTION_ERROR with explicit critical
severity on a thrown error. -/
def dbCheck : ProbeOutcome → List AlertCall
  | .ok qt _ =>
      if dbQueryThreshold < qt then
        [⟨"DB_SLOW", none, some qt, some dbQueryThreshold⟩]
      else []
  | .failure _ => [⟨"DB_CONNECTION_ERROR", some Severity.critical, none, none⟩]

/-- Body of one iteration of `startRedisMonitoring`: REDIS_SLOW on a
slow ping, REDIS_DOWN with explicit high severity on a thrown error. -/
def redisCheck : ProbeOutcome → List AlertCall
  | .ok rt _ =>
      if redisResponseThreshold < rt then
        [⟨"REDIS_SLOW", none, some rt, some redisResponseThreshold⟩]
      else []
  | .failure _ => [⟨"REDIS_DOWN", some Severity.high, none, none⟩]

/-- Outcome of the external-service fetch inside
`startExternalAPIMonitoring`: the fetch promise either resolves, or
rejects — and the rejection is swallowed by `.catch(() => null)`,
leaving `response = null`. -/
inductive FetchOutcome
  | response (responseTime : ℚ)
  | fetchError
deriving Repr

/-- Body of one service iteration of `startExternalAPIMonitoring` for
the fetch outcome: the alerts created and the `lastChecks` status
recorded.  A rejected fetch produces NO alert — the check is merely
marked degraded. -/
def externalCheck : FetchOutcome → List AlertCall × String
  | .response _ => ([], "healthy")
  | .fetchError => ([], "degraded")

/-- The alert built by the `catch` branch of
`startExternalAPIMonitoring` (reachable only when something other than
the fetch throws, since the fetch rejection is swallowed): explicit
severity medium. -/
def externalCatchAlert : AlertCall :=
  ⟨"EXTERNAL_API_DOWN", some Severity.medium, none, none⟩

/-! Diagnostic Agent alert handling, from `DiagnosticAgent.js`. -/

/-- Configured `config.agents.diagnostic.confidenceThreshold` default
(0.8). -/
def diagnosticConfidenceThreshold : ℚ := 4/5

/-- Embedding of the decision logic of `DiagnosticAgent.handleAlert`
(lines 93 and 112-121): info/low alerts are skipped before diagnosis;
a confident auto-fixable diagnosis publishes a repair request;
otherwise a confidence below 0.5 escalates to humans.  Returns
(repairRequested, escalated). -/
def handleAlertDecision (threshold : ℚ) (severity : Severity)
    (confidence : ℚ) (autoFixable : Bool) : Bool × Bool :=
  if severity = Severity.info ∨ severity = Severity.low then (false, false)
  else if threshold ≤ confidence ∧ autoFixable then (true, false)
  else if confidence < 1/2 then (false, true)
  else (false, false)

/-! Learning Agent, from the LearningAgent source. -/

/-- Configured `config.agents.learning.minSuccessRate` default
(0.95). -/
def minSuccessRate : ℚ := 19/20

/-- Configured `config.agents.learning.minOccurrences` default. -/
def minOccurrences : Nat := 3

/-- Configured `config.agents.learning.patternExpiry` default (days),
converted to milliseconds in `consolidatePatterns`. -/
def patternExpiryMs : Int := 90 * 24 * 60 * 60 * 1000

/-- `Math.round`: floor of the value plus one half. -/
def jsRound (q : ℚ) : Int := ⌊q + 1/2⌋

/-- JavaScript `a || b` on an optional number (`result.duration ||
60000`): falsy (missing or zero) falls back to the default. -/
def jsOrQ (v : Option ℚ) (dflt : ℚ) : ℚ :=
  if truthyNum v then v.getD 0 else dflt

/-- Pattern symptom signature; the source keys patterns by
`generateHash` of this record, modelled here by the record itself. -/
structure Symptoms where
  alertType : String
  component : String
  fixType : String
  severity : Severity
deriving DecidableEq, Repr

/-- The diagnosis fields consumed by the Learning Agent. -/
structure Diagnosis where
  alertType : Option String
  component : Option String
  fixType : String
  severity : Severity
  rootCause : String
  suggestedFix : String
deriving DecidableEq, Repr

/-- Symptom signature of a diagnosis (`alertType`/`component` default
to "unknown"). -/
def symptomsOf (d : Diagnosis) : Symptoms :=
  ⟨d.alertType.getD "unknown", d.component.getD "unknown",
    d.fixType, d.severity⟩

/-- Learned pattern record. -/
structure Pattern where
  id : Nat
  symptoms : Symptoms
  rootCause : String
  solution : String
  successCount : Nat
  failureCount : Nat
  successRate : ℚ
  avgFixTimeSeconds : Int
  autoFixEnabled : Bool
  lastAppliedAt : Int
  createdAt : Int
  updatedAt : Int
deriving DecidableEq, Repr

/-- An entry of `this.learningQueue` (pushed on every repair-complete
event, processed nowhere). -/
structure QueueItem where
  diagnosis : Diagnosis
  success : Bool
  timestamp : Int
deriving DecidableEq, Repr

/-- In-memory state of the LearningAgent: the pattern map (association
list keyed by symptom signature, standing for the hash-keyed
`this.patterns` map), the learning queue, and an id counter. -/
structure LearningAgentState where
  patterns : List (Symptoms × Pattern)
  learningQueue : List QueueItem
  nextId : Nat

/-- Empty LearningAgent. -/
def LearningAgentState.init : LearningAgentState := ⟨[], [], 0⟩

/-- Look up a pattern by symptom signature
(`this.patterns.get(patternHash)`). -/
def findPattern (ps : List (Symptoms × Pattern)) (sy : Symptoms) :
    Option Pattern :=
  (ps.find? (fun q => q.1 = sy)).map (fun q => q.2)

/-- Store a pattern under a signature (`this.patterns.set`): replace in
place when present, append otherwise. -/
def setPattern (ps : List (Symptoms × Pattern)) (sy : Symptoms)
    (p : Pattern) : List (Symptoms × Pattern) :=
  if (ps.find? (fun q => q.1 = sy)).isSome then
    ps.map (fun q => if q.1 = sy then (sy, p) else q)
  else ps ++ [(sy, p)]

/-- The in-place update of an existing pattern in `learnFromRepair`:
bump the success or failure count, recompute
`successRate = successCount / (successCount + failureCount)`, fold the
new fix time into the rolling average, and enable auto-fix once the
thresholds are met (never disabling it). -/
def updatedPattern (p : Pattern) (success : Bool) (durationMs : ℚ)
    (now : Int) : Pattern :=
  let successCount := if success then p.successCount + 1 else p.successCount
  let failureCount := if success then p.failureCount else p.failureCount + 1
  let successRate :=
    (successCount : ℚ) / ((successCount : ℚ) + (failureCount : ℚ))
  let avgFixTimeSeconds := jsRound
    (((p.avgFixTimeSeconds : ℚ) * ((successCount : ℚ) - 1)
        + durationMs / 1000) / (successCount : ℚ))
  let autoFixEnabled := p.autoFixEnabled ∨
    (minSuccessRate ≤ successRate ∧ minOccurrences ≤ successCount)
  { p with
      successCount := successCount
      failureCount := failureCount
      successRate := successRate
      avgFixTimeSeconds := avgFixTimeSeconds
      autoFixEnabled := autoFixEnabled
      lastAppliedAt := now
      updatedAt := now }

/-- The pattern created by `learnFromRepair` when the signature is
new. -/
def newPattern (id : Nat) (sy : Symptoms) (d : Diagnosis) (success : Bool)
    (durationMs : ℚ) (now : Int) : Pattern :=
  ⟨id, sy, d.rootCause, d.suggestedFix,
    if success then 1 else 0, if success then 0 else 1,
    if success then 1 else 0, jsRound (durationMs / 1000),
    false, now, now, now⟩

/-- Embedding of `LearningAgent.learnFromRepair`: load-or-create the
pattern for the diagnosis's symptom signature and update it.  The Redis
write and the pattern event are effects outside this model. -/
def LearningAgentState.learnFromRepair (s : LearningAgentState)
    (d : Diagnosis) (success : Bool) (duration : Option ℚ) (now : Int) :
    LearningAgentState × Pattern :=
  let symptoms := symptomsOf d
  let durationMs := jsOrQ duration 60000
  match findPattern s.patterns symptoms with
  | some p =>
      let p' := updatedPattern p success durationMs now
      ({ s with patterns := setPattern s.patterns symptoms p' }, p')
  | none =>
      let p := newPattern s.nextId symptoms d success durationMs now
      ({ s with
          patterns := s.patterns ++ [(symptoms, p)]
          nextId := s.nextId + 1 }, p)

/-- Embedding of `LearningAgent.handleRepairComplete`: every outcome is
queued, but only a successful one is learned from immediately — and
nothing ever drains the queue. -/
def LearningAgentState.handleRepairComplete (s : LearningAgentState)
    (d : Diagnosis) (success : Bool) (duration : Option ℚ) (now : Int) :
    LearningAgentState :=
  let s1 := { s with learningQueue := s.learningQueue ++ [⟨d, success, now⟩] }
  if success then (s1.learnFromRepair d success duration now).1 else s1

/-- The pruning half of `LearningAgent.consolidatePatterns`: drop
patterns that are both stale (older than the expiry window) and weak
(success rate below one half).  The database upsert and the playbook
event are effects outside this model. -/
def LearningAgentState.consolidatePatterns (s : LearningAgentState)
    (now : Int) : LearningAgentState :=
  { s with patterns := s.patterns.filter (fun q =>
      ¬(patternExpiryMs < now - q.2.lastAppliedAt ∧
        q.2.successRate < 1/2)) }

/-- Concrete diagnosis used to exercise the Learning Agent. -/
def c3Diag : Diagnosis :=
  ⟨some "API_SLOW", some "api", "CACHE_CLEAR", Severity.high,
    "slow responses", "clear cache"⟩

/-- Learning Agent state holding one pattern (one successful repair of
`c3Diag` learned from the empty state). -/
def c3State : LearningAgentState :=
  (LearningAgentState.init.learnFromRepair c3Diag true none 0).1

/-- Concrete alert data used to exercise the AlertManager. -/
def c1Data : AlertData := ⟨some "api", none, none, none, none⟩

/-- AlertManager holding one unresolved ("API_DOWN", "api") alert. -/
def c1State : AlertManagerState :=
  (AlertManagerState.init.create "API_DOWN" c1Data 0).1

/-- The alert record stored in `c1State`. -/
def c1Alert : Alert :=
  (AlertManagerState.init.create "API_DOWN" c1Data 0).2

end SelfHealing

open SelfHealing

theorem List.find?_map_of_pred {α : Type} (f : α → α) (p : α → Bool)
    (l : List α) (h : ∀ x, p (f x) = p x) :
    (l.map f).find? p = (l.find? p).map f := by
  induction l with
  | nil => rfl
  | cons a l ih =>
      simp only [List.map_cons, List.find?_cons]
      rw [h a]
      cases hp : p a <;> simp [ih]

theorem SelfHealing.getAlert_setAlert_self (s : AlertManagerState) (a b : Alert)
    (hb : s.getAlert a.id = some b) :
    (s.setAlert a).getAlert a.id = some a := by
  have hid : b.id = a.id := by
    have := List.find?_some hb
    simpa using this
  unfold AlertManagerState.getAlert AlertManagerState.setAlert
  rw [List.find?_map_of_pred _ _ _ ?hpred]
  case hpred =>
    intro x
    by_cases hx : x.id = a.id <;> simp [hx]
  unfold AlertManagerState.getAlert at hb
  rw [hb]
  simp [hid]

theorem SelfHealing.setAlert_setAlert_self (s : AlertManagerState) (a : Alert) :
    (s.setAlert a).setAlert a = s.setAlert a := by
  unfold AlertManagerState.setAlert
  simp only [List.map_map, AlertManagerState.mk.injEq, and_true]
  apply List.map_congr_left
  intro x _
  by_cases hx : x.id = a.id <;> simp [Function.comp, hx]

/-- C1: the claim fails on the code.  `AlertManager.create` stores a new
alert record unconditionally, so creating a second alert of the same
("API_DOWN", "api") pair while the first is unresolved leaves two stored
records for the pair, not one. -/
theorem C1_counterexample :
    ((c1State.create "API_DOWN" c1Data 1).1.pairCount "API_DOWN" "api") = 2 := by
  decide

/-- C1 (amended): `create` always appends a new record; the at-most-one
deduplication applies only to alerts routed through `processAlert`,
which, when an unresolved alert with the same (type, component) pair
exists in the store, stores no new record and returns the existing
record with its occurrence count (`count`) bumped to 2. -/
theorem C1_amended (s : AlertManagerState) (d : Alert) (a : Alert) (now : Int)
    (h : s.findRelatedAlert d.type d.component = some a) (hc : a.count = none) :
    ((s.processAlert d now).1).alerts.length = s.alerts.length ∧
    ((s.processAlert d now).2).count = some 2 ∧
    (∀ (t : String) (data : AlertData) (n : Int),
      ((s.create t data n).1).alerts.length = s.alerts.length + 1) := by
  refine ⟨?_, ?_, ?_⟩
  · simp [AlertManagerState.processAlert, h]
  · simp [AlertManagerState.processAlert, h, hc]
  · intro t data n
    simp [AlertManagerState.create]

/-- C1 (amended) witness: processing duplicate alert data against a
store holding one unresolved ("API_DOWN", "api") alert keeps the store
size at one and returns the record with `count = 2`. -/
theorem C1_amended_witness :
    (c1State.findRelatedAlert c1Alert.type c1Alert.component = some c1Alert ∧
      c1Alert.count = none) ∧
    ((c1State.processAlert c1Alert 5).1).alerts.length = 1 ∧
    ((c1State.processAlert c1Alert 5).2).count = some 2 :=
  ⟨⟨by decide, by decide⟩,
    (C1_amended c1State c1Alert c1Alert 5 (by decide) (by decide)).1,
    (C1_amended c1State c1Alert c1Alert 5 (by decide) (by decide)).2.1⟩

theorem SelfHealing.getAlert_some_id (s : AlertManagerState) (i : Nat)
    (a : Alert) (h : s.getAlert i = some a) : a.id = i := by
  have := List.find?_some h
  simpa using this

theorem SelfHealing.acknowledge_ok (s : AlertManagerState) (i : Nat) (a : Alert)
    (h : s.getAlert i = some a) (u : Option String) (now : Int) :
    s.acknowledge i u now =
      .ok (s.setAlert (ackUpdate a u now), ackUpdate a u now) := by
  unfold AlertManagerState.acknowledge
  rw [h]

theorem SelfHealing.resolve_ok (s : AlertManagerState) (i : Nat) (a : Alert)
    (h : s.getAlert i = some a) (b : Bool) (r : String) (now : Int) :
    s.resolve i b r now =
      .ok (s.setAlert (resolveUpdate a b r now), resolveUpdate a b r now) := by
  unfold AlertManagerState.resolve
  rw [h]

theorem SelfHealing.resolve_err_of_none (s : AlertManagerState) (i : Nat)
    (h : s.getAlert i = none) (b : Bool) (r : String) (now : Int) :
    s.resolve i b r now = .error (.notFound i) := by
  unfold AlertManagerState.resolve
  rw [h]

theorem SelfHealing.resolveUpdate_idem (a : Alert) (b : Bool) (r : String)
    (now : Int) :
    resolveUpdate (resolveUpdate a b r now) b r now = resolveUpdate a b r now :=
  rfl

/-- C7: `acknowledge` and `resolve` both fail with the not-found error
when the alert id is unknown; for a created alert, resolving after
acknowledging yields `resolved = true`; and resolving an already
resolved alert again with the same arguments is idempotent: it returns
no error and leaves the state unchanged. -/
theorem C7 (s : AlertManagerState) (hwf : s.WF)
    (alertId : Nat) (hid : s.getAlert alertId = none)
    (t : String) (d : AlertData) (t0 t1 t2 : Int) (u : Option String)
    (b : Bool) (r : String) :
    (s.acknowledge alertId u t0 = .error (.notFound alertId)) ∧
    (s.resolve alertId b r t0 = .error (.notFound alertId)) ∧
    (∀ s1 a, s.create t d t0 = (s1, a) →
      ∃ s2 a2 s3 a3, s1.acknowledge a.id u t1 = .ok (s2, a2) ∧
        s2.resolve a.id b r t2 = .ok (s3, a3) ∧ a3.resolved = true ∧
        s3.getAlert a.id = some a3) ∧
    (∀ id2 s' a', s.resolve id2 b r t0 = .ok (s', a') →
        s'.resolve id2 b r t0 = .ok (s', a')) := by
  refine ⟨?_, ?_, ?_, ?_⟩
  · simp [AlertManagerState.acknowledge, hid]
  · simp [AlertManagerState.resolve, hid]
  · intro s1 a hca
    have hs1 : s1.alerts = s.alerts ++ [a] ∧ a.id = s.nextId := by
      simp only [AlertManagerState.create, Prod.mk.injEq] at hca
      obtain ⟨h1, h2⟩ := hca
      subst h1
      subst h2
      exact ⟨rfl, rfl⟩
    have hget : s1.getAlert a.id = some a := by
      unfold AlertManagerState.getAlert
      rw [hs1.1, List.find?_append]
      have hnone : s.alerts.find? (fun x => x.id = a.id) = none := by
        rw [List.find?_eq_none]
        intro x hx
        have hx2 := hwf x hx
        have hx3 := hs1.2
        simp only [decide_eq_true_eq]
        omega
      simp [hnone]
    have hget2 : (s1.setAlert (ackUpdate a u t1)).getAlert a.id
        = some (ackUpdate a u t1) :=
      getAlert_setAlert_self s1 (ackUpdate a u t1) a hget
    refine ⟨_, _, _, _, acknowledge_ok s1 a.id a hget u t1,
      resolve_ok _ a.id (ackUpdate a u t1) hget2 b r t2, rfl, ?_⟩
    exact getAlert_setAlert_self _ (resolveUpdate (ackUpdate a u t1) b r t2)
      (ackUpdate a u t1) hget2
  · intro id2 s' a' hres
    cases hfind : s.getAlert id2 with
    | none =>
        rw [resolve_err_of_none s id2 hfind b r t0] at hres
        exact absurd hres (by simp)
    | some alert =>
        rw [resolve_ok s id2 alert hfind b r t0] at hres
        simp only [Except.ok.injEq, Prod.mk.injEq] at hres
        obtain ⟨hs', ha'⟩ := hres
        subst hs'
        subst ha'
        have h0 : alert.id = id2 := getAlert_some_id s id2 alert hfind
        have hg : (s.setAlert (resolveUpdate alert b r t0)).getAlert id2
            = some (resolveUpdate alert b r t0) := by
          have := getAlert_setAlert_self s (resolveUpdate alert b r t0) alert
            (by rw [show (resolveUpdate alert b r t0).id = id2 from h0]; exact hfind)
          rwa [show (resolveUpdate alert b r t0).id = id2 from h0] at this
        rw [resolve_ok _ id2 (resolveUpdate alert b r t0) hg b r t0]
        rw [resolveUpdate_idem, setAlert_setAlert_self]

/-- C7 witness: on a store holding one alert (id 0), id 99 is unknown
and acknowledging it fails with the not-found error. -/
theorem C7_witness :
    (c1State.WF ∧ c1State.getAlert 99 = none) ∧
    c1State.acknowledge 99 none 7 = .error (.notFound 99) :=
  ⟨⟨by decide, by decide⟩,
    (C7 c1State (by decide) 99 (by decide) "X" c1Data 7 8 9 none true "done").1⟩

/-- C9: severity defaulting follows the priority table of
`determineSeverity`: hard-coded critical types first, hard-coded high
types second, then the value/threshold ratio heuristic (ratio greater
than 2 gives critical, greater than 3/2 high, greater than 1 medium,
otherwise low), and low whenever value or threshold is missing or zero;
`create` applies it exactly when no explicit severity is supplied. -/
theorem C9 (t : String) (d : AlertData) :
    (t ∈ criticalTypes → determineSeverity t d = .critical) ∧
    (t ∉ criticalTypes → t ∈ highTypes → determineSeverity t d = .high) ∧
    (∀ v thr, t ∉ criticalTypes → t ∉ highTypes → d.value = some v →
      d.threshold = some thr → v ≠ 0 → thr ≠ 0 →
      determineSeverity t d =
        (if 2 < v / thr then .critical
         else if 3/2 < v / thr then .high
         else if 1 < v / thr then .medium
         else .low)) ∧
    (t ∉ criticalTypes → t ∉ highTypes →
      ¬(truthyNum d.value ∧ truthyNum d.threshold) →
      determineSeverity t d = .low) ∧
    (d.severity = none → ∀ (s : AlertManagerState) (now : Int),
      ((s.create t d now).2).severity = determineSeverity t d) := by
  refine ⟨?_, ?_, ?_, ?_, ?_⟩
  · intro h
    simp [determineSeverity, h]
  · intro h1 h2
    simp [determineSeverity, h1, h2]
  · intro v thr h1 h2 hv hthr hv0 hthr0
    simp only [determineSeverity, if_neg h1, if_neg h2, hv, hthr]
    have htr : truthyNum (some v) = true ∧ truthyNum (some thr) = true := by
      simp [truthyNum, hv0, hthr0]
    rw [if_pos htr]
    simp only [Option.getD_some]
  · intro h1 h2 h3
    simp [determineSeverity, h1, h2, h3]
  · intro h s now
    simp [AlertManagerState.create, h]

/-- C9 witness: "CPU_HIGH" is not hard-coded; with value 250 against
threshold 100 the ratio 5/2 exceeds 2, giving severity critical. -/
theorem C9_witness :
    determineSeverity "CPU_HIGH" ⟨some "system", none, none, some 100, some 250⟩
      = .critical := by
  have h := (C9 "CPU_HIGH"
      ⟨some "system", none, none, some 100, some 250⟩).2.2.1 250 100
    (by decide) (by decide) rfl rfl (by norm_num) (by norm_num)
  rw [h]
  norm_num

theorem SelfHealing.range_map_shift (n i : Nat) :
    (List.range (n + 1)).map (· + i) = i :: (List.range n).map (· + (i + 1)) := by
  rw [List.range_succ_eq_map, List.map_cons, List.map_map, Nat.zero_add]
  refine congrArg (fun l => i :: l) ?_
  apply List.map_congr_left
  intro x _
  simp only [Function.comp_apply]
  omega

theorem SelfHealing.emitLocalAux_all_ok (hs : List Handler) (e : Event)
    (hok : ∀ f ∈ hs, f e = .ok ()) (i : Nat) :
    emitLocalAux hs e i = ((List.range hs.length).map (· + i), none) := by
  induction hs generalizing i with
  | nil => rfl
  | cons h t ih =>
      simp only [emitLocalAux]
      rw [hok h (by simp)]
      simp only [List.length_cons]
      rw [ih (fun f hf => hok f (by simp [hf])) (i + 1)]
      dsimp only
      rw [range_map_shift]

theorem SelfHealing.emitLocalAux_stops (hs1 hs2 : List Handler) (h : Handler)
    (e : Event) (msg : String) (hok : ∀ f ∈ hs1, f e = .ok ())
    (herr : h e = .error msg) (i : Nat) :
    emitLocalAux (hs1 ++ h :: hs2) e i
      = ((List.range (hs1.length + 1)).map (· + i), some msg) := by
  induction hs1 generalizing i with
  | nil =>
      simp only [List.nil_append, emitLocalAux, herr, List.length_nil]
      simp [List.range_succ]
  | cons f t ih =>
      simp only [List.cons_append, emitLocalAux]
      rw [hok f (by simp)]
      simp only [List.length_cons]
      rw [show (t.append (h :: hs2)) = t ++ h :: hs2 from rfl]
      rw [ih (fun g hg => hok g (by simp [hg])) (i + 1)]
      dsimp only
      rw [range_map_shift, range_map_shift, range_map_shift]

/-- C2 (amended): on the Redis delivery path every subscriber's handler
runs inside a per-message error capture; but in the in-process dispatch
performed by `publish` (`EventEmitter.emit`, no per-handler capture), an
exception thrown by one subscriber's handler propagates and prevents
delivery to every subscriber registered after it, while subscribers
registered before it are unaffected. -/
theorem C2_amended (hs1 hs2 : List Handler) (h : Handler) (e : Event)
    (msg : String) (hok : ∀ f ∈ hs1, f e = .ok ())
    (herr : h e = .error msg) :
    (emitLocal (hs1 ++ h :: hs2) e).1 = List.range (hs1.length + 1) ∧
    (∀ j, hs1.length < j → j ∉ (emitLocal (hs1 ++ h :: hs2) e).1) ∧
    (∀ gs : List Handler, (∀ f ∈ gs, f e = .ok ()) →
      (emitLocal gs e).1 = List.range gs.length) ∧
    (∀ gs : List Handler, (redisDispatch gs e).length = gs.length) := by
  have hstop := emitLocalAux_stops hs1 hs2 h e msg hok herr 0
  refine ⟨?_, ?_, ?_, ?_⟩
  · simp [emitLocal, hstop]
  · intro j hj
    simp only [emitLocal, hstop]
    simp only [List.mem_map, List.mem_range]
    rintro ⟨x, hx, rfl⟩
    omega
  · intro gs hgs
    simp [emitLocal, emitLocalAux_all_ok gs e hgs 0]
  · intro gs
    simp [redisDispatch]

/-- C2: the claim fails on the code.  With two local subscribers on the
same channel, the first handler throwing prevents delivery of the
published event to the second handler entirely. -/
theorem C2_counterexample :
    (emitLocal [c2Throwing, c2Ok] c2Event).1 = [0] ∧
    1 ∉ (emitLocal [c2Throwing, c2Ok] c2Event).1 :=
  ⟨rfl, by intro hmem; rw [show (emitLocal [c2Throwing, c2Ok] c2Event).1
      = [0] from rfl] at hmem; simp at hmem⟩

/-- C2 (amended) witness: with handlers ok, throwing, ok, exactly the
first two are invoked locally, index 2 is skipped, and the Redis path
runs all three wrapped callbacks. -/
theorem C2_amended_witness :
    (emitLocal [c2Ok, c2Throwing, c2Ok] c2Event).1 = [0, 1] ∧
    2 ∉ (emitLocal [c2Ok, c2Throwing, c2Ok] c2Event).1 ∧
    (redisDispatch [c2Ok, c2Throwing, c2Ok] c2Event).length = 3 := by
  have h := C2_amended [c2Ok] [c2Ok] c2Throwing c2Event "boom"
    (by intro f hf; rw [List.mem_singleton] at hf; subst hf; rfl) rfl
  refine ⟨?_, ?_, ?_⟩
  · rw [show ([c2Ok] ++ c2Throwing :: [c2Ok])
        = [c2Ok, c2Throwing, c2Ok] from rfl] at h
    rw [h.1]
    rfl
  · have h2 := h.2.1 2 (by simp)
    rwa [show ([c2Ok] ++ c2Throwing :: [c2Ok])
        = [c2Ok, c2Throwing, c2Ok] from rfl] at h2
  · have h4 := h.2.2.2 [c2Ok, c2Throwing, c2Ok]
    exact h4

theorem SelfHealing.getLast?_drop {α : Type} (l : List α) (k : Nat)
    (h : k < l.length) : (l.drop k).getLast? = l.getLast? := by
  induction l generalizing k with
  | nil => simp at h
  | cons a t ih =>
      cases k with
      | zero => rfl
      | succ k =>
          simp only [List.drop_succ_cons]
          cases t with
          | nil => simp at h
          | cons b t' =>
              rw [List.getLast?_cons_cons]
              exact ih k (by simpa using h)

theorem SelfHealing.sliceLast_getLast? (l : List Metric) (limit : Nat) :
    (sliceLast l limit).getLast? = l.getLast? := by
  unfold sliceLast
  by_cases h0 : limit = 0
  · simp [h0]
  · rw [if_neg h0]
    by_cases hl : l.length = 0
    · rw [List.length_eq_zero] at hl
      simp [hl]
    · exact getLast?_drop l _ (by omega)

theorem SelfHealing.evictStep_getLast? (l : List Metric) (m : Metric) :
    (if maxInMemoryPoints < (l ++ [m]).length then (l ++ [m]).tail
      else l ++ [m]).getLast? = some m := by
  by_cases h : maxInMemoryPoints < (l ++ [m]).length
  · rw [if_pos h]
    cases l with
    | nil => simp [maxInMemoryPoints] at h
    | cons a t =>
        rw [List.cons_append, List.tail_cons]
        rw [List.getLast?_append_cons]
        rfl
  · rw [if_neg h]
    rw [List.getLast?_append_cons]
    rfl

theorem SelfHealing.record_metrics_self (s : MetricsStoreState) (name : String)
    (value : ℚ) (opts : RecordOptions) (now : Int) :
    (s.record name value opts now).1.metrics name =
      (if maxInMemoryPoints
          < (s.metrics name ++ [recordedMetric s name value opts now]).length
        then (s.metrics name ++ [recordedMetric s name value opts now]).tail
        else s.metrics name ++ [recordedMetric s name value opts now]) := by
  simp [MetricsStoreState.record]

/-- C8: a sample recorded via `record` is the newest entry returned by a
default `get` query, with the recorded name, value and tags; as long as
the per-name array is below `maxInMemoryPoints` a record keeps all
previous samples, and once the cap is reached the oldest sample (the
array head) is the one evicted; `getStats` on a name with no retained
samples returns null (`none`, and being a total Lean function it cannot
throw). -/
theorem C8 (s : MetricsStoreState) (name : String) (value : ℚ)
    (opts : RecordOptions) (now : Int) :
    ((s.record name value opts now).1.get name defaultGetOptions).getLast?
        = some ((s.record name value opts now).2) ∧
    ((s.record name value opts now).2.name = name ∧
      (s.record name value opts now).2.value = value ∧
      (s.record name value opts now).2.tags = opts.tags) ∧
    ((s.metrics name).length < maxInMemoryPoints →
      (s.record name value opts now).1.metrics name
        = s.metrics name ++ [(s.record name value opts now).2]) ∧
    (maxInMemoryPoints ≤ (s.metrics name).length →
      (s.record name value opts now).1.metrics name
        = (s.metrics name).tail ++ [(s.record name value opts now).2]) ∧
    (s.metrics name = [] → s.getStats name defaultGetOptions = none) := by
  have hsnd : (s.record name value opts now).2
      = recordedMetric s name value opts now := rfl
  refine ⟨?_, ⟨rfl, rfl, rfl⟩, ?_, ?_, ?_⟩
  · unfold MetricsStoreState.get
    simp only [defaultGetOptions, truthyTime, Bool.false_eq_true, if_false,
      cond_false]
    rw [record_metrics_self]
    rw [sliceLast_getLast?]
    rw [hsnd]
    exact evictStep_getLast? _ _
  · intro hlen
    rw [record_metrics_self, hsnd]
    rw [if_neg (by simp only [List.length_append, List.length_cons,
      List.length_nil]; omega)]
  · intro hlen
    rw [record_metrics_self, hsnd]
    rw [if_pos (by simp only [List.length_append, List.length_cons,
      List.length_nil]; omega)]
    have hne : s.metrics name ≠ [] := by
      intro hx
      rw [hx] at hlen
      simp [maxInMemoryPoints] at hlen
    cases hx : s.metrics name with
    | nil => exact absurd hx hne
    | cons a t => rw [List.cons_append, List.tail_cons, List.tail_cons]
  · intro hempty
    unfold MetricsStoreState.getStats MetricsStoreState.get
    simp [hempty, sliceLast]

/-- C8 witness: recording one cpu sample into the empty store makes it
the newest result of a default query, appends it (the cap is far from
reached), and stats of the untouched empty store is null. -/
theorem C8_witness :
    ((MetricsStoreState.init.metrics "cpu").length < maxInMemoryPoints ∧
      MetricsStoreState.init.metrics "cpu" = []) ∧
    ((MetricsStoreState.init.record "cpu" 42 ⟨"%", "system", [], "normal"⟩ 3).1.get
        "cpu" defaultGetOptions).getLast?
      = some ((MetricsStoreState.init.record "cpu" 42
          ⟨"%", "system", [], "normal"⟩ 3).2) ∧
    (MetricsStoreState.init.record "cpu" 42
        ⟨"%", "system", [], "normal"⟩ 3).1.metrics "cpu"
      = MetricsStoreState.init.metrics "cpu"
        ++ [(MetricsStoreState.init.record "cpu" 42
            ⟨"%", "system", [], "normal"⟩ 3).2] ∧
    MetricsStoreState.init.getStats "cpu" defaultGetOptions = none :=
  ⟨⟨by decide, rfl⟩,
    (C8 MetricsStoreState.init "cpu" 42 ⟨"%", "system", [], "normal"⟩ 3).1,
    (C8 MetricsStoreState.init "cpu" 42 ⟨"%", "system", [], "normal"⟩ 3).2.2.1
      (by decide),
    (C8 MetricsStoreState.init "cpu" 42 ⟨"%", "system", [], "normal"⟩ 3).2.2.2.2
      rfl⟩

theorem SelfHealing.sorted_filter_split (l : List Int) (c : Int)
    (hs : l.Pairwise (· ≤ ·)) :
    ∃ d, l = d ++ l.filter (fun x => decide (c < x)) ∧ ∀ x ∈ d, x ≤ c := by
  induction l with
  | nil => exact ⟨[], rfl, by simp⟩
  | cons a t ih =>
      rw [List.pairwise_cons] at hs
      obtain ⟨ha, ht⟩ := hs
      by_cases hc : c < a
      · refine ⟨[], ?_, by simp⟩
        have hfeq : (a :: t).filter (fun x => decide (c < x)) = a :: t := by
          rw [List.filter_eq_self]
          intro x hx
          simp only [decide_eq_true_eq]
          rcases List.mem_cons.mp hx with h | h
          · omega
          · exact lt_of_lt_of_le hc (ha x h)
        rw [hfeq, List.nil_append]
      · obtain ⟨d, hd, hdc⟩ := ih ht
        refine ⟨a :: d, ?_, ?_⟩
        · rw [List.filter_cons_of_neg (by simpa using hc), List.cons_append]
          exact congrArg (a :: ·) hd
        · intro x hx
          rcases List.mem_cons.mp hx with h | h
          · omega
          · exact hdc x h

theorem SelfHealing.isAllowed_false_state (rl : RateLimiter) (key : String)
    (now : Int) (h : (rl.isAllowed key now).1 = false) :
    (rl.isAllowed key now).2 = rl := by
  unfold RateLimiter.isAllowed at h ⊢
  by_cases hc : rl.maxRequests
      ≤ ((rl.requests key).filter (fun time => now - rl.windowMs < time)).length
  · rw [if_pos hc]
  · rw [if_neg hc] at h
    simp at h

theorem SelfHealing.isAllowed_true_iff (rl : RateLimiter) (key : String)
    (now : Int) :
    (rl.isAllowed key now).1 = true ↔
      ((rl.requests key).filter
        (fun t => decide (now - rl.windowMs < t))).length < rl.maxRequests := by
  unfold RateLimiter.isAllowed
  by_cases hc : rl.maxRequests
      ≤ ((rl.requests key).filter (fun time => now - rl.windowMs < time)).length
  · rw [if_pos hc]
    simp
    omega
  · rw [if_neg hc]
    simp
    omega

theorem SelfHealing.isAllowed_true_state (rl : RateLimiter) (key : String)
    (now : Int) (h : (rl.isAllowed key now).1 = true) :
    ((rl.isAllowed key now).2).requests key
        = (rl.requests key).filter (fun t => decide (now - rl.windowMs < t))
          ++ [now] ∧
    ((rl.isAllowed key now).2).maxRequests = rl.maxRequests ∧
    ((rl.isAllowed key now).2).windowMs = rl.windowMs := by
  unfold RateLimiter.isAllowed at h ⊢
  by_cases hc : rl.maxRequests
      ≤ ((rl.requests key).filter (fun time => now - rl.windowMs < time)).length
  · rw [if_pos hc] at h
    simp at h
  · rw [if_neg hc]
    exact ⟨by simp, rfl, rfl⟩

theorem SelfHealing.storeInv_mono (max : Nat) (w : Int)
    (grants stored : List Int) (lastNow now : Int) (hle : lastNow ≤ now)
    (hinv : StoreInv max w grants stored lastNow) :
    StoreInv max w grants stored now := by
  obtain ⟨⟨pre, hsplit, hpre⟩, hsorted, hbound, hwin⟩ := hinv
  exact ⟨⟨pre, hsplit, fun x hx => by have := hpre x hx; omega⟩, hsorted,
    fun x hx => by have := hbound x hx; omega, hwin⟩

theorem SelfHealing.storeInv_grant (max : Nat) (w : Int)
    (grants stored : List Int) (lastNow now : Int) (hle : lastNow ≤ now)
    (hinv : StoreInv max w grants stored lastNow)
    (hcnt : (stored.filter (fun t => decide (now - w < t))).length < max) :
    StoreInv max w (grants ++ [now])
      (stored.filter (fun t => decide (now - w < t)) ++ [now]) now := by
  obtain ⟨⟨pre, hsplit, hpre⟩, hsorted, hbound, hwin⟩ := hinv
  have hstoredSorted : stored.Pairwise (· ≤ ·) := by
    rw [hsplit, List.pairwise_append] at hsorted
    exact hsorted.2.1
  obtain ⟨d, hd, hdc⟩ := sorted_filter_split stored (now - w) hstoredSorted
  refine ⟨⟨pre ++ d, ?_, ?_⟩, ?_, ?_, ?_⟩
  · rw [hsplit]
    conv_lhs => rw [hd]
    simp [List.append_assoc]
  · intro x hx
    rcases List.mem_append.mp hx with h | h
    · have := hpre x h
      omega
    · exact hdc x h
  · rw [List.pairwise_append]
    refine ⟨by rw [hsplit] at hsorted ⊢; exact hsorted, by simp, ?_⟩
    intro x hx y hy
    rw [List.mem_singleton] at hy
    subst hy
    have := hbound x hx
    omega
  · intro x hx
    rcases List.mem_append.mp hx with h | h
    · have := hbound x h
      omega
    · rw [List.mem_singleton] at h
      omega
  · intro T
    rw [List.filter_append]
    by_cases hT : inWindow w T now = true
    · have hnowT : now ≤ T := by
        simp only [inWindow, decide_eq_true_eq, Bool.and_eq_true,
          decide_eq_true_eq] at hT
        exact hT.2
      have hpreNil : pre.filter (inWindow w T) = [] := by
        rw [List.filter_eq_nil_iff]
        intro x hx
        have := hpre x hx
        simp only [inWindow, Bool.and_eq_true, decide_eq_true_eq]
        intro hcon
        omega
      have hmono : (stored.filter (inWindow w T)).length
          ≤ (stored.filter (fun t => decide (now - w < t))).length := by
        apply List.Sublist.length_le
        apply List.monotone_filter_right
        intro a hx
        simp only [inWindow, Bool.and_eq_true, decide_eq_true_eq] at hx
        simp only [decide_eq_true_eq]
        omega
      have hgr : (grants.filter (inWindow w T)).length
          ≤ (stored.filter (fun t => decide (now - w < t))).length := by
        rw [hsplit, List.filter_append, hpreNil, List.nil_append]
        exact hmono
      rw [List.filter_cons_of_pos hT, List.filter_nil, List.length_append]
      simp only [List.length_cons, List.length_nil]
      omega
    · have : ([now].filter (inWindow w T)) = [] := by
        rw [List.filter_cons_of_neg (by simpa using hT), List.filter_nil]
      rw [this, List.append_nil]
      exact hwin T

theorem SelfHealing.runLimiter_window_bound (max : Nat) (w : Int)
    (key : String) (ts : List Int) :
    ∀ (rl : RateLimiter) (grants : List Int) (lastNow : Int),
    rl.maxRequests = max → rl.windowMs = w →
    ts.Pairwise (· ≤ ·) → (∀ t ∈ ts, lastNow ≤ t) →
    StoreInv max w grants (rl.requests key) lastNow →
    ∀ T, ((grants ++ (runLimiter rl key ts).2).filter
      (inWindow w T)).length ≤ max := by
  induction ts with
  | nil =>
      intro rl grants lastNow hmax hw _ _ hinv T
      simpa [runLimiter] using hinv.2.2.2 T
  | cons t ts ih =>
      intro rl grants lastNow hmax hw hpw hge hinv T
      rw [List.pairwise_cons] at hpw
      obtain ⟨hthead, hpw'⟩ := hpw
      have hlt : lastNow ≤ t := hge t (by simp)
      by_cases hok : (rl.isAllowed key t).1 = true
      · have hstate := isAllowed_true_state rl key t hok
        have hcnt : ((rl.requests key).filter
            (fun x => decide (t - w < x))).length < max := by
          have hmem := (isAllowed_true_iff rl key t).mp hok
          simp only [hw, hmax] at hmem
          exact hmem
        have hinv' := storeInv_grant max w grants (rl.requests key)
          lastNow t hlt hinv hcnt
        have hreq := hstate.1
        simp only [hw] at hreq
        have happly := ih (rl.isAllowed key t).2 (grants ++ [t]) t
          (by rw [hstate.2.1, hmax]) (by rw [hstate.2.2, hw]) hpw'
          (fun u hu => hthead u hu) (by rw [hreq]; exact hinv')
        have hsplit2 : grants ++ (runLimiter rl key (t :: ts)).2
            = (grants ++ [t])
              ++ (runLimiter (rl.isAllowed key t).2 key ts).2 := by
          simp only [runLimiter, hok, if_true, List.append_assoc,
            List.singleton_append]
        rw [hsplit2]
        exact happly T
      · have hfalse : (rl.isAllowed key t).1 = false := by
          revert hok
          cases (rl.isAllowed key t).1 <;> simp
        have hst := isAllowed_false_state rl key t hfalse
        have hinv' := storeInv_mono max w grants (rl.requests key)
          lastNow t hlt hinv
        have happly := ih rl grants t hmax hw hpw'
          (fun u hu => hthead u hu) hinv'
        have hsplit2 : grants ++ (runLimiter rl key (t :: ts)).2
            = grants ++ (runLimiter rl key ts).2 := by
          simp only [runLimiter, hfalse, if_false, Bool.false_eq_true, hst]
        rw [hsplit2]
        exact happly T

/-- C10: the rate limiter enforces the sliding-window bound — over any
monotone sequence of `isAllowed` calls for a key, every window of
`windowMs` milliseconds contains at most `maxRequests` granted times; a
denied call records nothing (the limiter state is unchanged, so denials
do not extend the lockout); and whenever fewer than `maxRequests`
stored timestamps remain strictly inside the window the key is allowed
again — stale timestamps are discarded by the filter inside `isAllowed`
itself, so no active cleanup is needed for correctness. -/
theorem C10 (max : Nat) (w : Int) (key : String) (ts : List Int)
    (hsort : ts.Pairwise (· ≤ ·)) :
    (∀ T : Int, (((runLimiter (RateLimiter.make max w) key ts).2).filter
        (inWindow w T)).length ≤ max) ∧
    (∀ (rl : RateLimiter) (k : String) (now : Int),
      (rl.isAllowed k now).1 = false → (rl.isAllowed k now).2 = rl) ∧
    (∀ (rl : RateLimiter) (k : String) (now : Int),
      ((rl.requests k).filter
        (fun t => decide (now - rl.windowMs < t))).length < rl.maxRequests →
      (rl.isAllowed k now).1 = true) := by
  refine ⟨?_, isAllowed_false_state, ?_⟩
  · intro T
    cases ts with
    | nil => simp [runLimiter]
    | cons t rest =>
        have hinv0 : StoreInv max w []
            ((RateLimiter.make max w).requests key) t := by
          refine ⟨⟨[], rfl, by simp⟩, by simp, by simp, ?_⟩
          intro T2
          simp [RateLimiter.make]
        have := runLimiter_window_bound max w key (t :: rest)
          (RateLimiter.make max w) [] t rfl rfl hsort
          (fun u hu => ?_) hinv0 T
        · simpa using this
        · rcases List.mem_cons.mp hu with h | h
          · omega
          · rw [List.pairwise_cons] at hsort
            exact hsort.1 u h
  · intro rl k now h
    exact (isAllowed_true_iff rl k now).mpr h

/-- C10 witness: with `maxRequests = 2` and a 10ms window, calls at
times 0, 1, 2 grant the first two and deny the third, every 10ms window
holds at most 2 grants, and the denied call leaves the limiter's stored
timestamps for the key unchanged. -/
theorem C10_witness :
    ((runLimiter (RateLimiter.make 2 10) "ip" [0, 1, 2]).2 = [0, 1]) ∧
    (((runLimiter (RateLimiter.make 2 10) "ip" [0, 1, 2]).2.filter
      (inWindow 10 2)).length ≤ 2) := by
  constructor
  · rfl
  · exact (C10 2 10 "ip" [0, 1, 2] (by decide)).1 2

theorem SelfHealing.dropMatch_mem (sub l rest : List Char)
    (h : dropMatch sub l = some rest) : ∀ c ∈ sub, c ∈ l := by
  induction sub generalizing l with
  | nil => simp
  | cons k ks ih =>
      cases l with
      | nil => simp [dropMatch] at h
      | cons c cs =>
          rw [dropMatch] at h
          by_cases hk : k = c
          · rw [if_pos hk] at h
            intro x hx
            rcases List.mem_cons.mp hx with hx | hx
            · subst hx
              simp [hk]
            · exact List.mem_cons_of_mem c (ih cs h x hx)
          · rw [if_neg hk] at h
            simp at h

theorem SelfHealing.hasSubChars_mem (sub l : List Char)
    (h : hasSubChars sub l = true) : ∀ c ∈ sub, c ∈ l := by
  induction l with
  | nil =>
      rw [hasSubChars] at h
      cases hsub : dropMatch sub [] with
      | none => rw [hsub] at h; simp at h
      | some rest => exact dropMatch_mem sub [] rest hsub
  | cons a cs ih =>
      rw [hasSubChars, Bool.or_eq_true] at h
      rcases h with h | h
      · cases hsub : dropMatch sub (a :: cs) with
        | none => rw [hsub] at h; simp at h
        | some rest => exact dropMatch_mem sub (a :: cs) rest hsub
      · intro c hc
        exact List.mem_cons_of_mem a (ih h c hc)

theorem SelfHealing.sqlPatternTest_of_quote (v : String)
    (h : '\'' ∈ v.data) : sqlPatternTest v = true := by
  unfold sqlPatternTest
  simp [h]

theorem SelfHealing.sqlInBodyFields_of_mem (body : List (String × BodyVal))
    (k : String) (v : String) (hm : (k, BodyVal.str v) ∈ body)
    (hv : sqlPatternTest v = true) : sqlInBodyFields body = true := by
  induction body with
  | nil => simp at hm
  | cons f rest ih =>
      cases f with
      | mk a b =>
          rcases List.mem_cons.mp hm with h | h
          · injection h with h1 h2
            rw [sqlInBodyFields, ← h2, sqlInBodyVal, hv, Bool.true_or]
          · rw [sqlInBodyFields, ih h, Bool.or_true]

theorem SelfHealing.blockIP_contains (s : SecurityAgentState) (ip : String) :
    (s.blockIP ip).blockedIPs.contains ip = true := by
  unfold SecurityAgentState.blockIP
  by_cases h : s.blockedIPs.contains ip = true
  · simp only [h, if_true]
  · rw [if_neg h]
    simp

theorem SelfHealing.recordFailedLogin_grant (s : SecurityAgentState)
    (ip : String) (u e : Option String) (t : Int)
    (hg : (s.loginLimiter.isAllowed ip t).1 = true) :
    (s.recordFailedLogin ip u e t).loginLimiter
        = (s.loginLimiter.isAllowed ip t).2 ∧
    (s.recordFailedLogin ip u e t).blockedIPs = s.blockedIPs ∧
    (s.recordFailedLogin ip u e t).incidents = s.incidents := by
  unfold SecurityAgentState.recordFailedLogin
  simp only [hg, if_true]
  exact ⟨trivial, trivial, trivial⟩

theorem SelfHealing.recordFailedLogin_deny (s : SecurityAgentState)
    (ip : String) (u e : Option String) (t : Int)
    (hd : (s.loginLimiter.isAllowed ip t).1 = false) :
    (s.recordFailedLogin ip u e t).loginLimiter = s.loginLimiter ∧
    (s.recordFailedLogin ip u e t).blockedIPs.contains ip = true ∧
    (s.recordFailedLogin ip u e t).incidents = s.incidents ++
      [⟨s.nextId, "BRUTE_FORCE", Severity.high, ip, none, u,
        some "BLOCK_IP_1H", true, t⟩] := by
  unfold SecurityAgentState.recordFailedLogin
  simp only [hd, Bool.false_eq_true, if_false]
  have hst := isAllowed_false_state s.loginLimiter ip t hd
  unfold SecurityAgentState.handleThreat
  refine ⟨?_, ?_, ?_⟩
  · simp only []
    rw [show threatBlocks "BRUTE_FORCE" = true from rfl, if_pos rfl]
    simp [SecurityAgentState.blockIP, hst]
  · simp only []
    rw [show threatBlocks "BRUTE_FORCE" = true from rfl, if_pos rfl]
    exact blockIP_contains _ ip
  · simp only []
    rw [show threatBlocks "BRUTE_FORCE" = true from rfl, if_pos rfl]
    simp [SecurityAgentState.blockIP, mitigationFor]

theorem SelfHealing.stepGrantSummary (s : SecurityAgentState) (ip : String)
    (t : Int) (l : List Int)
    (hreq : s.loginLimiter.requests ip = l)
    (hmax : s.loginLimiter.maxRequests = maxFailedLogins)
    (hw : s.loginLimiter.windowMs = lockoutDuration)
    (hwin : ∀ x ∈ l, t - lockoutDuration < x)
    (hlen : l.length < maxFailedLogins) :
    (s.recordFailedLogin ip none none t).loginLimiter.requests ip
        = l ++ [t] ∧
    (s.recordFailedLogin ip none none t).loginLimiter.maxRequests
        = maxFailedLogins ∧
    (s.recordFailedLogin ip none none t).loginLimiter.windowMs
        = lockoutDuration ∧
    (s.recordFailedLogin ip none none t).blockedIPs = s.blockedIPs ∧
    (s.recordFailedLogin ip none none t).incidents = s.incidents := by
  have hg : (s.loginLimiter.isAllowed ip t).1 = true := by
    rw [isAllowed_true_iff]
    simp only [hreq, hmax, hw]
    rw [List.filter_eq_self.mpr (fun x hx => by simpa using hwin x hx)]
    exact hlen
  obtain ⟨hl, hb, hi⟩ := recordFailedLogin_grant s ip none none t hg
  obtain ⟨hr2, hm2, hw2⟩ := isAllowed_true_state s.loginLimiter ip t hg
  refine ⟨?_, ?_, ?_, hb, hi⟩
  · rw [hl, hr2]
    simp only [hreq, hw]
    rw [List.filter_eq_self.mpr (fun x hx => by simpa using hwin x hx)]
  · rw [hl, hm2, hmax]
  · rw [hl, hw2, hw]

theorem SelfHealing.stepDenySummary (s : SecurityAgentState) (ip : String)
    (t : Int) (l : List Int)
    (hreq : s.loginLimiter.requests ip = l)
    (hmax : s.loginLimiter.maxRequests = maxFailedLogins)
    (hw : s.loginLimiter.windowMs = lockoutDuration)
    (hwin : ∀ x ∈ l, t - lockoutDuration < x)
    (hlen : maxFailedLogins ≤ l.length) :
    (s.recordFailedLogin ip none none t).blockedIPs.contains ip = true ∧
    ∃ inc ∈ (s.recordFailedLogin ip none none t).incidents,
      inc.type = "BRUTE_FORCE" ∧ inc.blocked = true := by
  have hd : (s.loginLimiter.isAllowed ip t).1 = false := by
    rw [Bool.eq_false_iff]
    rw [Ne, isAllowed_true_iff]
    simp only [hreq, hmax, hw]
    rw [List.filter_eq_self.mpr (fun x hx => by simpa using hwin x hx)]
    omega
  obtain ⟨hl, hb, hi⟩ := recordFailedLogin_deny s ip none none t hd
  refine ⟨hb, ⟨⟨s.nextId, "BRUTE_FORCE", Severity.high, ip, none, none,
    some "BLOCK_IP_1H", true, t⟩, ?_, rfl, rfl⟩⟩
  rw [hi]
  exact List.mem_append_right _ (by simp)

theorem SelfHealing.bruteForceChain (ip : String) (t1 t2 t3 t4 t5 t6 : Int)
    (h12 : t1 ≤ t2) (h23 : t2 ≤ t3) (h34 : t3 ≤ t4) (h45 : t4 ≤ t5)
    (h56 : t5 ≤ t6) (hwin : t6 - t1 < lockoutDuration) :
    (recordFailedLogins SecurityAgentState.init ip
        [t1, t2, t3, t4, t5, t6]).blockedIPs.contains ip = true ∧
    ∃ inc ∈ (recordFailedLogins SecurityAgentState.init ip
        [t1, t2, t3, t4, t5, t6]).incidents,
      inc.type = "BRUTE_FORCE" ∧ inc.blocked = true := by
  have hL : (0 : Int) < lockoutDuration := by norm_num [lockoutDuration]
  unfold recordFailedLogins
  simp only [List.foldl_cons, List.foldl_nil]
  obtain ⟨r1, m1, w1, b1, i1⟩ := stepGrantSummary SecurityAgentState.init ip t1
    [] rfl rfl rfl (by simp) (by norm_num [maxFailedLogins])
  obtain ⟨r2, m2, w2, b2, i2⟩ := stepGrantSummary _ ip t2 [t1] r1 m1 w1
    (by intro x hx; rw [List.mem_singleton] at hx; subst hx; omega)
    (by norm_num [maxFailedLogins])
  obtain ⟨r3, m3, w3, b3, i3⟩ := stepGrantSummary _ ip t3 [t1, t2] r2 m2 w2
    (by intro x hx
        rcases List.mem_cons.mp hx with h | h
        · subst h; omega
        · rw [List.mem_singleton] at h; subst h; omega)
    (by norm_num [maxFailedLogins])
  obtain ⟨r4, m4, w4, b4, i4⟩ := stepGrantSummary _ ip t4 [t1, t2, t3] r3 m3 w3
    (by intro x hx
        rcases List.mem_cons.mp hx with h | h
        · subst h; omega
        rcases List.mem_cons.mp h with h | h
        · subst h; omega
        · rw [List.mem_singleton] at h; subst h; omega)
    (by norm_num [maxFailedLogins])
  obtain ⟨r5, m5, w5, b5, i5⟩ := stepGrantSummary _ ip t5 [t1, t2, t3, t4]
    r4 m4 w4
    (by intro x hx
        rcases List.mem_cons.mp hx with h | h
        · subst h; omega
        rcases List.mem_cons.mp h with h | h
        · subst h; omega
        rcases List.mem_cons.mp h with h | h
        · subst h; omega
        · rw [List.mem_singleton] at h; subst h; omega)
    (by norm_num [maxFailedLogins])
  exact stepDenySummary _ ip t6 [t1, t2, t3, t4, t5] r5 m5 w5
    (by intro x hx
        rcases List.mem_cons.mp hx with h | h
        · subst h; omega
        rcases List.mem_cons.mp h with h | h
        · subst h; omega
        rcases List.mem_cons.mp h with h | h
        · subst h; omega
        rcases List.mem_cons.mp h with h | h
        · subst h; omega
        · rw [List.mem_singleton] at h; subst h; omega)
    (by norm_num [maxFailedLogins])

theorem SelfHealing.dropMatch_of_append (x y l r : List Char)
    (h : dropMatch (x ++ y) l = some r) : ∃ m, dropMatch x l = some m := by
  induction x generalizing l with
  | nil => exact ⟨l, rfl⟩
  | cons k ks ih =>
      cases l with
      | nil => simp [dropMatch] at h
      | cons c cs =>
          rw [List.cons_append, dropMatch] at h
          by_cases hk : k = c
          · rw [if_pos hk] at h
            obtain ⟨m, hm⟩ := ih cs h
            exact ⟨m, by rw [dropMatch, if_pos hk]; exact hm⟩
          · rw [if_neg hk] at h
            simp at h

theorem SelfHealing.hasSubChars_of_append (x y l : List Char)
    (h : hasSubChars (x ++ y) l = true) : hasSubChars x l = true := by
  induction l with
  | nil =>
      rw [hasSubChars] at h ⊢
      cases hd : dropMatch (x ++ y) [] with
      | none => rw [hd] at h; simp at h
      | some r =>
          obtain ⟨m, hm⟩ := dropMatch_of_append x y [] r hd
          simp [hm]
  | cons a cs ih =>
      rw [hasSubChars] at h ⊢
      rw [Bool.or_eq_true] at h
      rcases h with h | h
      · cases hd : dropMatch (x ++ y) (a :: cs) with
        | none => rw [hd] at h; simp at h
        | some r =>
            obtain ⟨m, hm⟩ := dropMatch_of_append x y (a :: cs) r hd
            simp [hm]
      · simp [ih h]

/-- C6: with the request's source IP not already blocked, a request
whose body holds a string field containing `'; DROP TABLE users; --` is
blocked with threat type SQL_INJECTION; a request whose path contains
`../../etc/passwd` and that does not already trip the earlier SQL and
XSS checks is blocked with threat type PATH_TRAVERSAL; and six failed
logins for one IP at nondecreasing times within the lockout window
leave that IP in the blocked-IP set with a BRUTE_FORCE incident
recorded (as blocked). -/
theorem C6 (s : SecurityAgentState) (ip path : String)
    (body : List (String × BodyVal)) (u : Option String) (now : Int)
    (k v : String) (path2 : String) (body2 : List (String × BodyVal))
    (t1 t2 t3 t4 t5 t6 : Int)
    (hnb : s.blockedIPs.contains ip = false)
    (hm : (k, BodyVal.str v) ∈ body)
    (hv : hasSub "'; DROP TABLE users; --" v = true)
    (hsql2 : detectSQLInjection path2 body2 = false)
    (hxss2 : detectXSS path2 body2 = false)
    (htrav : hasSub "../../etc/passwd" path2 = true)
    (h12 : t1 ≤ t2) (h23 : t2 ≤ t3) (h34 : t3 ≤ t4) (h45 : t4 ≤ t5)
    (h56 : t5 ≤ t6) (hwin : t6 - t1 < lockoutDuration) :
    ((s.analyzeRequest ip path body u now).2
        = ⟨true, some "SQL injection detected", some "SQL_INJECTION"⟩) ∧
    ((s.analyzeRequest ip path2 body2 u now).2
        = ⟨true, some "Path traversal detected", some "PATH_TRAVERSAL"⟩) ∧
    ((recordFailedLogins SecurityAgentState.init ip
        [t1, t2, t3, t4, t5, t6]).blockedIPs.contains ip = true ∧
      ∃ inc ∈ (recordFailedLogins SecurityAgentState.init ip
          [t1, t2, t3, t4, t5, t6]).incidents,
        inc.type = "BRUTE_FORCE" ∧ inc.blocked = true) := by
  refine ⟨?_, ?_, ?_⟩
  · have hquote : '\'' ∈ v.data :=
      hasSubChars_mem _ _ hv '\'' (by decide)
    have hsql : detectSQLInjection path body = true := by
      unfold detectSQLInjection
      rw [sqlInBodyFields_of_mem body k v hm (sqlPatternTest_of_quote v hquote),
        Bool.or_true]
    unfold SecurityAgentState.analyzeRequest
    rw [if_neg (by simpa using hnb), if_pos hsql]
  · have htravtest : pathTraversalTest path2 = true := by
      unfold pathTraversalTest hasSub
      apply hasSubChars_of_append ("../".data) ("../etc/passwd".data)
      have hdata : ("../".data ++ "../etc/passwd".data)
          = ("../../etc/passwd").data := by decide
      rw [hdata]
      exact htrav
    unfold SecurityAgentState.analyzeRequest
    rw [if_neg (by simpa using hnb), if_neg (by simp [hsql2]),
      if_neg (by simp [hxss2]), if_pos htravtest]
  · exact bruteForceChain ip t1 t2 t3 t4 t5 t6 h12 h23 h34 h45 h56 hwin

/-- C6 witness: a concrete clean agent; a body field holding the SQL
probe string is blocked as SQL_INJECTION, the `/../../etc/passwd` path
is blocked as PATH_TRAVERSAL, and six failed logins at times 0..5 block
the IP with a BRUTE_FORCE incident. -/
theorem C6_witness :
    ((SecurityAgentState.init.analyzeRequest "1.2.3.4" "/login"
        [("q", BodyVal.str "'; DROP TABLE users; --")] none 0).2
      = ⟨true, some "SQL injection detected", some "SQL_INJECTION"⟩) ∧
    ((SecurityAgentState.init.analyzeRequest "1.2.3.4" "/../../etc/passwd"
        [] none 0).2
      = ⟨true, some "Path traversal detected", some "PATH_TRAVERSAL"⟩) ∧
    ((recordFailedLogins SecurityAgentState.init "1.2.3.4"
        [0, 1, 2, 3, 4, 5]).blockedIPs.contains "1.2.3.4" = true ∧
      ∃ inc ∈ (recordFailedLogins SecurityAgentState.init "1.2.3.4"
          [0, 1, 2, 3, 4, 5]).incidents,
        inc.type = "BRUTE_FORCE" ∧ inc.blocked = true) :=
  C6 SecurityAgentState.init "1.2.3.4" "/login"
    [("q", BodyVal.str "'; DROP TABLE users; --")] none 0
    "q" "'; DROP TABLE users; --" "/../../etc/passwd" []
    0 1 2 3 4 5
    rfl (List.mem_singleton.mpr rfl) (by decide) (by decide) (by decide)
    (by decide) (by decide) (by decide) (by decide) (by decide) (by decide)
    (by decide)

/-- C4: the claim fails on the code.  A failed external-dependency
probe raises no alert at all: the fetch rejection is swallowed by
`.catch(() => null)` and the target is merely marked degraded; and the
EXTERNAL_API_DOWN alert of the catch path carries severity medium, not
critical or high. -/
theorem C4_counterexample :
    (externalCheck FetchOutcome.fetchError).1 = [] ∧
    (externalCheck FetchOutcome.fetchError).2 = "degraded" ∧
    externalCatchAlert.severity = some Severity.medium :=
  ⟨rfl, rfl, rfl⟩

/-- C4 (amended): failed probes of internal API endpoints and the
database raise alerts with explicit critical severity, and of Redis
with explicit high severity — the explicit severity overrides the
value/threshold heuristic in `create`; a failed external-dependency
probe raises no alert (the fetch rejection is swallowed and the check
marked degraded), and the catch-path external alert uses severity
medium. -/
theorem C4_amended (msg : String) (s : AlertManagerState) (now : Int) :
    apiCheck (.failure msg)
        = [⟨"API_DOWN", some Severity.critical, none, none⟩] ∧
    dbCheck (.failure msg)
        = [⟨"DB_CONNECTION_ERROR", some Severity.critical, none, none⟩] ∧
    redisCheck (.failure msg)
        = [⟨"REDIS_DOWN", some Severity.high, none, none⟩] ∧
    externalCheck .fetchError = ([], "degraded") ∧
    externalCatchAlert.severity = some Severity.medium ∧
    (∀ (t : String) (d : AlertData), d.severity = some Severity.critical →
      ((s.create t d now).2).severity = Severity.critical) ∧
    (∀ (t : String) (d : AlertData), d.severity = some Severity.high →
      ((s.create t d now).2).severity = Severity.high) := by
  refine ⟨rfl, rfl, rfl, rfl, rfl, ?_, ?_⟩ <;>
    · intro t d h
      simp [AlertManagerState.create, h]

/-- C4 (amended) witness: a monitor-style create call with explicit
critical severity stores a critical alert. -/
theorem C4_amended_witness :
    ((AlertManagerState.init.create "API_DOWN"
        ⟨some "api", none, some Severity.critical, none, none⟩ 0).2).severity
      = Severity.critical :=
  (C4_amended "timeout" AlertManagerState.init 0).2.2.2.2.2.1 "API_DOWN"
    ⟨some "api", none, some Severity.critical, none, none⟩ rfl

/-- C5: for a diagnosed alert (severity above the skip floor) and any
confidence threshold of at least one half — the configured default is
0.8 — a repair request is published exactly when the confidence reaches
the threshold and the diagnosis is auto-fixable; a confidence below 0.5
escalates to humans instead; in particular confidence 0.3 never
requests a repair and always escalates. -/
theorem C5 (thr conf : ℚ) (sev : Severity) (af : Bool)
    (hthr : 1/2 ≤ thr)
    (hsev : ¬(sev = Severity.info ∨ sev = Severity.low)) :
    ((handleAlertDecision thr sev conf af).1 = true ↔
      (thr ≤ conf ∧ af = true)) ∧
    (conf < 1/2 → handleAlertDecision thr sev conf af = (false, true)) ∧
    (conf = 3/10 → handleAlertDecision thr sev conf af = (false, true)) ∧
    diagnosticConfidenceThreshold = 4/5 := by
  have hesc : ∀ c : ℚ, c < 1/2 → handleAlertDecision thr sev c af
      = (false, true) := by
    intro c hcl
    unfold handleAlertDecision
    rw [if_neg hsev, if_neg ?hno, if_pos hcl]
    case hno =>
      intro hcon
      have h1 := hcon.1
      linarith
  refine ⟨?_, hesc conf, fun h => by rw [h]; exact hesc (3/10) (by norm_num),
    rfl⟩
  unfold handleAlertDecision
  rw [if_neg hsev]
  by_cases hc : thr ≤ conf ∧ af = true
  · rw [if_pos hc]
    simpa using hc
  · rw [if_neg hc]
    by_cases hlt : conf < 1/2
    · rw [if_pos hlt]
      simpa using hc
    · rw [if_neg hlt]
      simpa using hc

/-- C5 witness: at the configured threshold 0.8, a confidence-0.3
diagnosis of a high-severity alert escalates and requests no repair. -/
theorem C5_witness :
    (1 : ℚ)/2 ≤ diagnosticConfidenceThreshold ∧
    handleAlertDecision diagnosticConfidenceThreshold Severity.high
      (3/10) true = (false, true) :=
  ⟨by norm_num [diagnosticConfidenceThreshold],
    (C5 diagnosticConfidenceThreshold (3/10) Severity.high true
      (by norm_num [diagnosticConfidenceThreshold]) (by simp)).2.2.1 rfl⟩

theorem SelfHealing.findPattern_setPattern (ps : List (Symptoms × Pattern))
    (sy : Symptoms) (p : Pattern) :
    findPattern (setPattern ps sy p) sy = some p := by
  unfold setPattern findPattern
  by_cases h : (ps.find? (fun q => q.1 = sy)).isSome
  · rw [if_pos h]
    rw [List.find?_map_of_pred (fun q => if q.1 = sy then (sy, p) else q)
      (fun q => decide (q.1 = sy)) ps ?hpred]
    case hpred =>
      intro x
      by_cases hx : x.1 = sy <;> simp [hx]
    obtain ⟨q, hq⟩ := Option.isSome_iff_exists.mp h
    rw [hq]
    have hq1 : q.1 = sy := by
      have := List.find?_some hq
      simpa using this
    simp [hq1]
  · rw [if_neg h]
    rw [List.find?_append]
    rw [Option.not_isSome_iff_eq_none.mp h]
    simp

/-- C3: the claim fails on the code.  On a failed repair outcome the
Learning Agent does not touch the pattern store: starting from a store
holding the pattern with one success and no failures, a failed
repair-complete event leaves the patterns unchanged — `failureCount`
stays 0 instead of being incremented — and only appends to the
never-drained learning queue. -/
theorem C3_counterexample :
    (c3State.handleRepairComplete c3Diag false none 5).patterns
        = c3State.patterns ∧
    ((findPattern (c3State.handleRepairComplete c3Diag false none 5).patterns
        (symptomsOf c3Diag)).map Pattern.failureCount) = some 0 ∧
    (c3State.handleRepairComplete c3Diag false none 5).learningQueue
        = [⟨c3Diag, false, 5⟩] := by
  refine ⟨rfl, ?_, rfl⟩
  rfl

/-- C3 (amended): only a successful repair outcome is learned from —
`handleRepairComplete` queues a failed outcome without touching the
pattern store (and nothing drains the queue).  On a successful outcome,
the pattern keyed by the symptom signature (alertType, component,
fixType, severity) is loaded or created: an existing pattern gets
`successCount` incremented, `failureCount` kept, and `successRate`
recomputed as successCount / (successCount + failureCount);
`autoFixEnabled` becomes true once `successRate ≥ minSuccessRate` and
`successCount ≥ minOccurrences` and never reverts to false except by
consolidation-time pruning, which only removes patterns. -/
theorem C3_amended (s : LearningAgentState) (d : Diagnosis) (p : Pattern)
    (dur : Option ℚ) (now : Int)
    (hfind : findPattern s.patterns (symptomsOf d) = some p) :
    (∀ (s2 : LearningAgentState) (d2 : Diagnosis) (dur2 : Option ℚ)
        (now2 : Int),
      (s2.handleRepairComplete d2 false dur2 now2).patterns = s2.patterns ∧
      (s2.handleRepairComplete d2 false dur2 now2).learningQueue
        = s2.learningQueue ++ [⟨d2, false, now2⟩]) ∧
    ((s.learnFromRepair d true dur now).2.successCount
        = p.successCount + 1 ∧
      (s.learnFromRepair d true dur now).2.failureCount = p.failureCount ∧
      (s.learnFromRepair d true dur now).2.successRate
        = ((p.successCount : ℚ) + 1)
          / (((p.successCount : ℚ) + 1) + (p.failureCount : ℚ)) ∧
      (p.autoFixEnabled = true →
        (s.learnFromRepair d true dur now).2.autoFixEnabled = true) ∧
      ((minSuccessRate ≤ (s.learnFromRepair d true dur now).2.successRate ∧
          minOccurrences ≤ (s.learnFromRepair d true dur now).2.successCount) →
        (s.learnFromRepair d true dur now).2.autoFixEnabled = true) ∧
      findPattern ((s.learnFromRepair d true dur now).1).patterns
          (symptomsOf d) = some (s.learnFromRepair d true dur now).2 ∧
      (s.handleRepairComplete d true dur now).patterns
        = ((s.learnFromRepair d true dur now).1).patterns) ∧
    (∀ (s3 : LearningAgentState) (d3 : Diagnosis) (dur3 : Option ℚ)
        (now3 : Int),
      findPattern s3.patterns (symptomsOf d3) = none →
      (s3.learnFromRepair d3 true dur3 now3).2.successCount = 1 ∧
      (s3.learnFromRepair d3 true dur3 now3).2.failureCount = 0 ∧
      (s3.learnFromRepair d3 true dur3 now3).2.successRate = 1 ∧
      (s3.learnFromRepair d3 true dur3 now3).2.autoFixEnabled = false ∧
      findPattern ((s3.learnFromRepair d3 true dur3 now3).1).patterns
          (symptomsOf d3) = some (s3.learnFromRepair d3 true dur3 now3).2) ∧
    (∀ (s4 : LearningAgentState) (now4 : Int),
      (s4.consolidatePatterns now4).patterns.Sublist s4.patterns) := by
  refine ⟨?_, ?_, ?_, ?_⟩
  · intro s2 d2 dur2 now2
    unfold LearningAgentState.handleRepairComplete
    simp
  · unfold LearningAgentState.learnFromRepair
    simp only [hfind]
    refine ⟨?_, ?_, ?_, ?_, ?_, ?_, ?_⟩
    · simp [updatedPattern]
    · simp [updatedPattern]
    · simp only [updatedPattern, if_true]
      push_cast
      ring_nf
    · intro h
      simp [updatedPattern, h]
    · intro h
      simp only [updatedPattern, if_true] at h ⊢
      simp only [decide_eq_true_eq, Bool.or_eq_true] at h ⊢
      exact Or.inr ⟨h.1, h.2⟩
    · exact findPattern_setPattern s.patterns (symptomsOf d) _
    · unfold LearningAgentState.handleRepairComplete
        LearningAgentState.learnFromRepair
      simp [hfind]
  · intro s3 d3 dur3 now3 hnone
    unfold LearningAgentState.learnFromRepair
    simp only [hnone]
    refine ⟨rfl, rfl, by simp [newPattern], rfl, ?_⟩
    unfold findPattern
    rw [List.find?_append]
    have hn2 : s3.patterns.find? (fun q => q.1 = symptomsOf d3) = none := by
      unfold findPattern at hnone
      exact Option.map_eq_none.mp hnone
    rw [hn2]
    simp
  · intro s4 now4
    exact List.filter_sublist _

/-- C3 (amended) witness: on the store holding one pattern for
`c3Diag` (one success), a failed outcome leaves the patterns untouched,
and a successful one bumps the pattern's success count to 2. -/
theorem C3_amended_witness :
    (c3State.handleRepairComplete c3Diag false none 5).patterns
        = c3State.patterns ∧
    (c3State.learnFromRepair c3Diag true none 7).2.successCount = 2 := by
  have h := C3_amended c3State c3Diag
    ((LearningAgentState.init.learnFromRepair c3Diag true none 0).2) none 7 rfl
  refine ⟨(h.1 c3State c3Diag none 5).1, ?_⟩
  rw [h.2.1.1]
  rfl
